import Mathlib

/- Shallow embedding of the sql_engine crate of the database repository:
   the query executor facade (lib.rs), the query processor (query/process.rs),
   the select command (dml/select.rs) and the prepared-statement session
   objects (session/statement.rs).  External collaborators (catalog manager,
   wire protocol crate, sqlparser AST, parameter binder) are modelled by
   concrete Lean types following the interface description of the
   specification.  The sender is modelled as the list of messages a call
   emits, in emission order; Rust panics are modelled by the panic outcome. -/

namespace Database

/-- Wire protocol column type tag (protocol crate, external collaborator). -/
inductive PgType where
  | smallint
  | int
  | bigint
  | bool
  | char
  | varchar
deriving DecidableEq

/-- Row description: ordered list of (column name, protocol type). -/
abbrev Description := List (String × PgType)

/-- Wire protocol parameter/result format (protocol crate). -/
inductive PgFormat where
  | text
  | binary
deriving DecidableEq

/-- Decoded parameter value (protocol crate); only the shape matters here. -/
inductive PgValue where
  | null
  | textual (s : String)
  | integral (i : Int)
deriving DecidableEq

/-- Query events of the protocol crate that the engine emits. -/
inductive QueryEvent where
  | queryComplete
  | parseComplete
  | bindComplete
  | preparedStatementDescribed (param_types : List PgType) (description : Description)
  | transactionStarted
  | variableSet
  | schemaCreated
  | schemaDropped
  | tableCreated
  | tableDropped
  | recordsInserted (n : Nat)
  | recordsUpdated (n : Nat)
  | recordsDeleted (n : Nat)
  | recordsSelected (description : Description) (rows : List (List String))
deriving DecidableEq

/-- Query errors of the protocol crate that the engine emits. -/
inductive QueryError where
  | syntaxError (msg : String)
  | featureNotSupported (raw : String)
  | protocolViolation (msg : String)
  | invalidParameterValue (msg : String)
  | schemaAlreadyExists (name : String)
  | schemaDoesNotExist (name : String)
  | tableAlreadyExists (name : String)
  | tableDoesNotExist (name : String)
  | columnDoesNotExist (names : List String)
  | preparedStatementDoesNotExist (name : String)
  | portalDoesNotExist (name : String)
deriving DecidableEq

/-- A message pushed on the sender: send(Ok(event)) or send(Err(error)). -/
inductive Msg where
  | evt (e : QueryEvent)
  | err (e : QueryError)
deriving DecidableEq

/-- Outcome of a call: Ok value, system error (SystemError in kernel crate),
    or a Rust panic (unwrap or out-of-bounds indexing). -/
inductive Outcome (α : Type) where
  | ok (a : α)
  | err (msg : String)
  | panic (msg : String)
deriving DecidableEq

/-- Engine column type (sql_types crate): tag plus seed or length payload. -/
inductive SqlType where
  | smallInt (seed : Int)
  | integer (seed : Int)
  | bigInt (seed : Int)
  | char (len : Nat)
  | varChar (len : Nat)
  | bool
deriving DecidableEq

/-- ColumnDefinition from lib.rs: display name plus engine type. -/
structure ColumnDefinition where
  name : String
  sql_type : SqlType
deriving DecidableEq

/-- ColumnDefinition::has_name from lib.rs. -/
def ColumnDefinition.has_name (c : ColumnDefinition) (other_name : String) : Bool :=
  c.name == other_name

/-- Modelled from the spec: conversion of an engine SqlType to the wire
    protocol type used in descriptions (the Into impl lives in the external
    protocol crate). -/
def sql_to_pg : SqlType → PgType
  | .smallInt _ => .smallint
  | .integer _ => .int
  | .bigInt _ => .bigint
  | .char _ => .char
  | .varChar _ => .varchar
  | .bool => .bool

/-- A stored table: columns in catalog order and rows of stringified datums. -/
structure TableDef where
  name : String
  columns : List ColumnDefinition
  rows : List (List String)
deriving DecidableEq

/-- A stored schema. -/
structure SchemaDef where
  name : String
  tables : List TableDef
deriving DecidableEq

/-- Modelled from the spec: the catalog manager interface of section 6
    (schema_exists, table_exists, table_columns, full_scan and the mutation
    primitives), realised over an in-memory list of schemas.  Rows are kept
    as already-stringified datums. -/
structure Catalog where
  schemas : List SchemaDef
deriving DecidableEq

/-- Modelled from the spec: schema_exists returns an id when present. -/
def Catalog.schema_exists (cat : Catalog) (name : String) : Option SchemaDef :=
  cat.schemas.find? (fun s => s.name == name)

/-- Modelled from the spec: outer none = schema missing, inner none = table
    missing. -/
def Catalog.table_exists (cat : Catalog) (schema_name table_name : String) :
    Option (Option TableDef) :=
  (cat.schema_exists schema_name).map (fun s => s.tables.find? (fun t => t.name == table_name))

/-- Modelled from the spec: columns of a table in catalog order. -/
def Catalog.table_columns (cat : Catalog) (schema_name table_name : String) :
    List ColumnDefinition :=
  match cat.table_exists schema_name table_name with
  | some (some t) => t.columns
  | _ => []

/-- Modelled from the spec: full scan of the stored rows of a table. -/
def Catalog.full_scan (cat : Catalog) (schema_name table_name : String) :
    List (List String) :=
  match cat.table_exists schema_name table_name with
  | some (some t) => t.rows
  | _ => []

/-- Modelled from the spec: create an empty schema. -/
def Catalog.create_schema_op (cat : Catalog) (name : String) : Catalog :=
  ⟨cat.schemas ++ [⟨name, []⟩]⟩

/-- Modelled from the spec: drop a schema by name. -/
def Catalog.drop_schema_op (cat : Catalog) (name : String) : Catalog :=
  ⟨cat.schemas.filter (fun s => !(s.name == name))⟩

/-- Modelled from the spec: create a table inside a schema. -/
def Catalog.create_table_op (cat : Catalog) (schema_name table_name : String)
    (columns : List ColumnDefinition) : Catalog :=
  ⟨cat.schemas.map (fun s =>
    if s.name == schema_name then ⟨s.name, s.tables ++ [⟨table_name, columns, []⟩]⟩ else s)⟩

/-- Modelled from the spec: drop a table from a schema. -/
def Catalog.drop_table_op (cat : Catalog) (schema_name table_name : String) : Catalog :=
  ⟨cat.schemas.map (fun s =>
    if s.name == schema_name then ⟨s.name, s.tables.filter (fun t => !(t.name == table_name))⟩
    else s)⟩

/-- Modelled from the spec: append rows to a table. -/
def Catalog.insert_rows (cat : Catalog) (schema_name table_name : String)
    (new_rows : List (List String)) : Catalog :=
  ⟨cat.schemas.map (fun s =>
    if s.name == schema_name then
      ⟨s.name, s.tables.map (fun t =>
        if t.name == table_name then ⟨t.name, t.columns, t.rows ++ new_rows⟩ else t)⟩
    else s)⟩

/-- Modelled from the spec: delete all rows of a table. -/
def Catalog.delete_all_rows (cat : Catalog) (schema_name table_name : String) : Catalog :=
  ⟨cat.schemas.map (fun s =>
    if s.name == schema_name then
      ⟨s.name, s.tables.map (fun t =>
        if t.name == table_name then ⟨t.name, t.columns, []⟩ else t)⟩
    else s)⟩

/-- pad_formats from lib.rs: match on (formats.len(), param_len). -/
def pad_formats (formats : List PgFormat) (param_len : Nat) :
    Except String (List PgFormat) :=
  if formats.length = 0 then .ok (List.replicate param_len PgFormat.text)
  else if formats.length = 1 then .ok (List.replicate param_len (formats.headD PgFormat.text))
  else if formats.length = param_len then .ok formats
  else .error ("expected " ++ toString formats.length ++
    " field format specifiers, but got " ++ toString param_len)

/-- Qualified name from the sqlparser AST: ObjectName is a list of ident
    segments (each segment rendered by its value). -/
abbrev ObjectName := List String

/-- Fragment of the sqlparser Expr type used by the select command:
    Expr::Identifier(Ident) plus a stand-in for every other expression kind
    (all of which the select command treats uniformly). -/
inductive Expr where
  | identifier (value : String)
  | otherExpr
deriving DecidableEq

/-- Fragment of the sqlparser SelectItem type: Wildcard, UnnamedExpr, and a
    stand-in for the remaining kinds (ExprWithAlias, QualifiedWildcard). -/
inductive SelectItem where
  | wildcard
  | unnamedExpr (e : Expr)
  | otherItem
deriving DecidableEq

/-- Fragment of the sqlparser TableFactor type: Table with its qualified
    name, and a stand-in for the remaining kinds (Derived, NestedJoin). -/
inductive TableFactor where
  | table (name : ObjectName)
  | otherFactor
deriving DecidableEq

/-- Join attached to a FROM item (payload irrelevant to the engine, which
    never reads it). -/
structure Join where
  relation : TableFactor
deriving DecidableEq

/-- TableWithJoins from the sqlparser AST. -/
structure TableWithJoins where
  relation : TableFactor
  joins : List Join
deriving DecidableEq

/-- Fragment of the sqlparser SetExpr type: a Select body carries its
    projection and FROM clause; Query, Values and SetOperation bodies are
    the other shapes the engine can receive.  Values rows are kept as
    stringified literals (their exact expression form is never inspected by
    the code under verification). -/
inductive SetExpr where
  | selectBody (projection : List SelectItem) (fromClause : List TableWithJoins)
  | queryBody
  | valuesBody (rows : List (List String))
  | setOperationBody
deriving DecidableEq

/-- Fragment of the sqlparser Query type: only the body is inspected. -/
structure Query where
  body : SetExpr
deriving DecidableEq

/-- Fragment of the sqlparser ObjectType used by Statement::Drop. -/
inductive ObjectType where
  | table
  | schema
  | otherObject
deriving DecidableEq

/-- Fragment of the sqlparser DataType used by the processor type mapping,
    plus representative members of the unsupported remainder (Real, Date,
    Uuid, Text). -/
inductive DataType where
  | smallintType
  | intType
  | bigintType
  | charType (len : Option Nat)
  | varcharType (len : Option Nat)
  | booleanType
  | customType (name : ObjectName)
  | realType
  | dateType
  | uuidType
  | textType
deriving DecidableEq

/-- Display rendering of a DataType as used in the feature-not-supported
    message (mirrors the sqlparser Display impl on the used fragment). -/
def DataType.display : DataType → String
  | .smallintType => "smallint"
  | .intType => "int"
  | .bigintType => "bigint"
  | .charType none => "char"
  | .charType (some n) => "char(" ++ toString n ++ ")"
  | .varcharType none => "character varying"
  | .varcharType (some n) => "character varying(" ++ toString n ++ ")"
  | .booleanType => "boolean"
  | .customType name => String.intercalate "." name
  | .realType => "real"
  | .dateType => "date"
  | .uuidType => "uuid"
  | .textType => "text"

/-- Column definition in a CREATE TABLE statement (sqlparser ColumnDef). -/
structure ColumnDefAst where
  name : String
  data_type : DataType
deriving DecidableEq

/-- Fragment of the sqlparser Statement type covering every arm the engine
    matches on, with a stand-in for the remaining kinds. -/
inductive Statement where
  | createTable (name : ObjectName) (columns : List ColumnDefAst)
  | createSchema (schema_name : ObjectName)
  | dropStmt (object_type : ObjectType) (names : List ObjectName) (cascade : Bool)
  | insert (table_name : ObjectName) (columns : List String) (source : Query)
  | startTransaction
  | setVariable
  | query (q : Query)
  | update (table_name : ObjectName)
  | delete (table_name : ObjectName)
  | otherStatement
deriving DecidableEq

end Database

namespace Database

/-- SchemaId from query/mod.rs.  Modelled from the spec: a normalized schema
    name of exactly one segment. -/
structure SchemaId where
  name : String
deriving DecidableEq

/-- TableId from query/mod.rs.  Modelled from the spec: (schema name, table
    name) from exactly two segments. -/
structure TableId where
  schema_name : String
  name : String
deriving DecidableEq

/-- Modelled from the spec: SchemaId construction fails with a naming error
    (carrying a diagnostic string) unless the qualified name has exactly one
    segment. -/
def SchemaId.try_from : ObjectName → Except String SchemaId
  | [s] => .ok ⟨s⟩
  | name => .error ("only unqualified schema names are supported, got: " ++
      String.intercalate "." name)

/-- Modelled from the spec: TableId construction fails with a naming error
    unless the qualified name has exactly two segments. -/
def TableId.try_from : ObjectName → Except String TableId
  | [s, t] => .ok ⟨s, t⟩
  | name => .error ("unable to process table name: " ++ String.intercalate "." name)

/-- SchemaCreationInfo from query/plan.rs (shape given in the spec). -/
structure SchemaCreationInfo where
  schema_name : String
deriving DecidableEq

/-- TableCreationInfo from query/plan.rs (shape given in the spec). -/
structure TableCreationInfo where
  schema_name : String
  table_name : String
  columns : List ColumnDefinition
deriving DecidableEq

/-- TableInserts from query/plan.rs (shape given in the spec). -/
structure TableInserts where
  table_id : TableId
  column_indices : List String
  input : Query
deriving DecidableEq

/-- Plan from query/plan.rs (variants listed in the spec). -/
inductive Plan where
  | createSchema (info : SchemaCreationInfo)
  | createTable (info : TableCreationInfo)
  | dropSchemas (schemas : List (SchemaId × Bool))
  | dropTables (tables : List TableId)
  | insert (table_insert : TableInserts)
  | notProcessed (stmt : Statement)
deriving DecidableEq

end Database

namespace Database.SelectCommand

/-- SelectInput from dml/select.rs. -/
structure SelectInput where
  schema_name : String
  table_name : String
  selected_columns : List String
deriving DecidableEq

/-- Projection loop of parse_select_input: Wildcard extends the columns with
    all catalog columns of the table, a bare identifier pushes its value, and
    any other item emits FeatureNotSupported and aborts. -/
def selected_columns_loop (cat : Catalog) (schema_name table_name raw : String) :
    List SelectItem → List Msg × Outcome (List String)
  | [] => ([], .ok [])
  | item :: rest =>
    match item with
    | SelectItem.wildcard =>
      let names := (cat.table_columns schema_name table_name).map ColumnDefinition.name
      match selected_columns_loop cat schema_name table_name raw rest with
      | (msgs, .ok cols) => (msgs, .ok (names ++ cols))
      | other => other
    | SelectItem.unnamedExpr (Expr.identifier value) =>
      match selected_columns_loop cat schema_name table_name raw rest with
      | (msgs, .ok cols) => (msgs, .ok (value :: cols))
      | other => other
    | _ =>
      ([.err (.featureNotSupported raw)], .err "Feature Not Supported")

/-- parse_select_input from dml/select.rs.  The indexing of from[0] and of
    the first two name segments is unchecked in the source and panics when
    out of bounds. -/
def parse_select_input (cat : Catalog) (raw : String) (q : Query) :
    List Msg × Outcome SelectInput :=
  match q.body with
  | SetExpr.selectBody projection fromClause =>
    match fromClause with
    | [] => ([], .panic "index out of bounds")
    | twj :: _ =>
      match twj.relation with
      | TableFactor.table name =>
        match name.get? 1 with
        | none => ([], .panic "index out of bounds")
        | some table_name =>
          match name.get? 0 with
          | none => ([], .panic "index out of bounds")
          | some schema_name =>
            match cat.table_exists schema_name table_name with
            | none =>
              ([.err (.schemaDoesNotExist schema_name)], .err "Schema Does Not Exist")
            | some none =>
              ([.err (.tableDoesNotExist (schema_name ++ "." ++ table_name))],
                .err "Table Does Not Exist")
            | some (some _) =>
              match selected_columns_loop cat schema_name table_name raw projection with
              | (msgs, .ok selected_columns) =>
                (msgs, .ok ⟨schema_name, table_name, selected_columns⟩)
              | (msgs, .err e) => (msgs, .err e)
              | (msgs, .panic m) => (msgs, .panic m)
      | _ =>
        ([.err (.featureNotSupported raw)], .err "Feature Not Supported")
  | _ =>
    ([.err (.featureNotSupported raw)], .err "Feature Not Supported")

/-- Inner loop of the execute resolution: first (index, definition) of the
    column whose name matches, scanning from position idx. -/
def find_column (idx : Nat) (cols : List ColumnDefinition) (column_name : String) :
    Option (Nat × ColumnDefinition) :=
  match cols with
  | [] => none
  | d :: ds =>
    if d.has_name column_name then some (idx, d)
    else find_column (idx + 1) ds column_name

/-- Resolution loop of execute: per selected column collect (index, def) or
    record the name as non-existing, preserving iteration order. -/
def resolve_exec (all_columns : List ColumnDefinition) :
    List String → List Nat × List ColumnDefinition × List String
  | [] => ([], [], [])
  | column_name :: rest =>
    let r := resolve_exec all_columns rest
    match find_column 0 all_columns column_name with
    | some (index, column_definition) =>
      (index :: r.1, column_definition :: r.2.1, r.2.2)
    | none => (r.1, r.2.1, column_name :: r.2.2)

/-- Inner loop of the describe resolution: first matching definition. -/
def find_column_only (cols : List ColumnDefinition) (column_name : String) :
    Option ColumnDefinition :=
  match cols with
  | [] => none
  | d :: ds =>
    if d.has_name column_name then some d
    else find_column_only ds column_name

/-- Resolution loop of describe: per selected column collect the definition
    or record the name as non-existing. -/
def resolve_desc (all_columns : List ColumnDefinition) :
    List String → List ColumnDefinition × List String
  | [] => ([], [])
  | column_name :: rest =>
    let r := resolve_desc all_columns rest
    match find_column_only all_columns column_name with
    | some column_definition => (column_definition :: r.1, r.2)
    | none => (r.1, column_name :: r.2)

/-- Row projection of execute: for every captured origin index, the inner
    pass over the enumerated row pushes the value whose position equals the
    origin. -/
def gather_values : List Nat → List String → List String
  | [], _ => []
  | origin :: rest, row =>
    ((row.enum.filter (fun p => p.fst == origin)).map Prod.snd) ++ gather_values rest row

/-- SelectCommand::describe from dml/select.rs. -/
def describe (cat : Catalog) (raw : String) (q : Query) :
    List Msg × Outcome Description :=
  match parse_select_input cat raw q with
  | (msgs, .err e) => (msgs, .err e)
  | (msgs, .panic m) => (msgs, .panic m)
  | (msgs, .ok input) =>
    let all_columns := cat.table_columns input.schema_name input.table_name
    let r := resolve_desc all_columns input.selected_columns
    if r.2 ≠ [] then
      (msgs ++ [.err (.columnDoesNotExist r.2)], .err "Column Does Not Exist")
    else
      (msgs, .ok (r.1.map (fun d => (d.name, sql_to_pg d.sql_type))))

/-- SelectCommand::execute from dml/select.rs.  A failed parse_select_input
    is swallowed (return Ok); a missing column emits the error and returns
    Ok; otherwise the full scan is projected and RecordsSelected emitted. -/
def execute (cat : Catalog) (raw : String) (q : Query) : List Msg × Outcome Unit :=
  match parse_select_input cat raw q with
  | (msgs, .err _) => (msgs, .ok ())
  | (msgs, .panic m) => (msgs, .panic m)
  | (msgs, .ok input) =>
    let records := cat.full_scan input.schema_name input.table_name
    let all_columns := cat.table_columns input.schema_name input.table_name
    let r := resolve_exec all_columns input.selected_columns
    if r.2.2 ≠ [] then
      (msgs ++ [.err (.columnDoesNotExist r.2.2)], .ok ())
    else
      let values := records.map (fun row => gather_values r.1 row)
      (msgs ++ [.evt (.recordsSelected
        (r.2.1.map (fun column => (column.name, sql_to_pg column.sql_type))) values)], .ok ())

end Database.SelectCommand

namespace Database.QueryProcessor

/-- sql_type_from_datatype from query/process.rs: the AST-to-SqlType mapping;
    an unsupported type emits FeatureNotSupported and rejects the statement
    (Err(()) in the source, the err outcome here). -/
def sql_type_from_datatype (datatype : DataType) : List Msg × Outcome SqlType :=
  match datatype with
  | .smallintType => ([], .ok (.smallInt (-32768)))
  | .intType => ([], .ok (.integer (-2147483648)))
  | .bigintType => ([], .ok (.bigInt (-9223372036854775808)))
  | .charType len => ([], .ok (.char (len.getD 255)))
  | .varcharType len => ([], .ok (.varChar (len.getD 255)))
  | .booleanType => ([], .ok .bool)
  | .customType name =>
    let n := String.intercalate "." name
    if n = "serial" then ([], .ok (.integer 1))
    else if n = "smallserial" then ([], .ok (.smallInt 1))
    else if n = "bigserial" then ([], .ok (.bigInt 1))
    else ([.err (.featureNotSupported (n ++ " type is not supported"))], .err "rejected")
  | other =>
    ([.err (.featureNotSupported (other.display ++ " type is not supported"))],
      .err "rejected")

/-- resolve_column_definitions from query/process.rs: translate each column
    type, aborting at the first unsupported one. -/
def resolve_column_definitions :
    List ColumnDefAst → List Msg × Outcome (List ColumnDefinition)
  | [] => ([], .ok [])
  | column :: rest =>
    match sql_type_from_datatype column.data_type with
    | (msgs, .err e) => (msgs, .err e)
    | (msgs, .panic m) => (msgs, .panic m)
    | (msgs, .ok sql_type) =>
      match resolve_column_definitions rest with
      | (m2, .ok defs) => (msgs ++ m2, .ok (⟨column.name, sql_type⟩ :: defs))
      | (m2, o) => (msgs ++ m2, o)

/-- handle_create_table from query/process.rs. -/
def handle_create_table (cat : Catalog) (name : ObjectName)
    (columns : List ColumnDefAst) : List Msg × Outcome Plan :=
  match TableId.try_from name with
  | .error message => ([.err (.syntaxError message)], .err "rejected")
  | .ok table_id =>
    match cat.table_exists table_id.schema_name table_id.name with
    | none =>
      ([.err (.schemaDoesNotExist table_id.schema_name)], .err "rejected")
    | some (some _) =>
      ([.err (.tableAlreadyExists (table_id.schema_name ++ "." ++ table_id.name))],
        .err "rejected")
    | some none =>
      match resolve_column_definitions columns with
      | (msgs, .ok defs) =>
        (msgs, .ok (.createTable ⟨table_id.schema_name, table_id.name, defs⟩))
      | (msgs, .err e) => (msgs, .err e)
      | (msgs, .panic m) => (msgs, .panic m)

/-- Iteration of handle_drop over table names: each name is resolved and
    validated, ending immediately on failure. -/
def drop_tables_loop (cat : Catalog) : List ObjectName → List Msg × Outcome (List TableId)
  | [] => ([], .ok [])
  | name :: rest =>
    match TableId.try_from name with
    | .error message => ([.err (.syntaxError message)], .err "rejected")
    | .ok table_id =>
      match cat.table_exists table_id.schema_name table_id.name with
      | none =>
        ([.err (.schemaDoesNotExist table_id.schema_name)], .err "rejected")
      | some none =>
        ([.err (.tableDoesNotExist (table_id.schema_name ++ "." ++ table_id.name))],
          .err "rejected")
      | some (some _) =>
        match drop_tables_loop cat rest with
        | (msgs, .ok ids) => (msgs, .ok (table_id :: ids))
        | other => other

/-- Iteration of handle_drop over schema names. -/
def drop_schemas_loop (cat : Catalog) (cascade : Bool) :
    List ObjectName → List Msg × Outcome (List (SchemaId × Bool))
  | [] => ([], .ok [])
  | name :: rest =>
    match SchemaId.try_from name with
    | .error message => ([.err (.syntaxError message)], .err "rejected")
    | .ok schema_id =>
      match cat.schema_exists schema_id.name with
      | none =>
        ([.err (.schemaDoesNotExist schema_id.name)], .err "rejected")
      | some _ =>
        match drop_schemas_loop cat cascade rest with
        | (msgs, .ok ids) => (msgs, .ok ((schema_id, cascade) :: ids))
        | other => other

/-- handle_drop from query/process.rs; other object types hit
    unimplemented!() and panic. -/
def handle_drop (cat : Catalog) (object_type : ObjectType) (names : List ObjectName)
    (cascade : Bool) : List Msg × Outcome Plan :=
  match object_type with
  | .table =>
    match drop_tables_loop cat names with
    | (msgs, .ok ids) => (msgs, .ok (.dropTables ids))
    | (msgs, .err e) => (msgs, .err e)
    | (msgs, .panic m) => (msgs, .panic m)
  | .schema =>
    match drop_schemas_loop cat cascade names with
    | (msgs, .ok ids) => (msgs, .ok (.dropSchemas ids))
    | (msgs, .err e) => (msgs, .err e)
    | (msgs, .panic m) => (msgs, .panic m)
  | .otherObject => ([], .panic "not implemented")

/-- QueryProcessor::process from query/process.rs. -/
def process (cat : Catalog) (stmt : Statement) : List Msg × Outcome Plan :=
  match stmt with
  | .createTable name columns => handle_create_table cat name columns
  | .createSchema schema_name =>
    match SchemaId.try_from schema_name with
    | .error message => ([.err (.syntaxError message)], .err "rejected")
    | .ok schema_id =>
      match cat.schema_exists schema_id.name with
      | some _ =>
        ([.err (.schemaAlreadyExists schema_id.name)], .err "rejected")
      | none => ([], .ok (.createSchema ⟨schema_id.name⟩))
  | .dropStmt object_type names cascade => handle_drop cat object_type names cascade
  | .insert table_name columns source =>
    match TableId.try_from table_name with
    | .ok table_id => ([], .ok (.insert ⟨table_id, columns, source⟩))
    | .error message => ([.err (.syntaxError message)], .err "rejected")
  | other => ([], .ok (.notProcessed other))

end Database.QueryProcessor

namespace Database

/-- Modelled from the spec: CreateSchemaCommand (ddl crate module, outside
    the provided sources) consults the catalog, performs the effect and emits
    SchemaCreated, or emits the semantic error and still returns Ok. -/
def create_schema_cmd (cat : Catalog) (info : SchemaCreationInfo) :
    List Msg × Outcome Catalog :=
  match cat.schema_exists info.schema_name with
  | some _ => ([.err (.schemaAlreadyExists info.schema_name)], .ok cat)
  | none => ([.evt .schemaCreated], .ok (cat.create_schema_op info.schema_name))

/-- Modelled from the spec: CreateTableCommand. -/
def create_table_cmd (cat : Catalog) (info : TableCreationInfo) :
    List Msg × Outcome Catalog :=
  match cat.table_exists info.schema_name info.table_name with
  | none => ([.err (.schemaDoesNotExist info.schema_name)], .ok cat)
  | some (some _) =>
    ([.err (.tableAlreadyExists (info.schema_name ++ "." ++ info.table_name))], .ok cat)
  | some none =>
    ([.evt .tableCreated], .ok (cat.create_table_op info.schema_name info.table_name info.columns))

/-- Modelled from the spec: DropSchemaCommand. -/
def drop_schema_cmd (cat : Catalog) (schema : SchemaId) (_cascade : Bool) :
    List Msg × Outcome Catalog :=
  match cat.schema_exists schema.name with
  | none => ([.err (.schemaDoesNotExist schema.name)], .ok cat)
  | some _ => ([.evt .schemaDropped], .ok (cat.drop_schema_op schema.name))

/-- Modelled from the spec: DropTableCommand. -/
def drop_table_cmd (cat : Catalog) (table : TableId) : List Msg × Outcome Catalog :=
  match cat.table_exists table.schema_name table.name with
  | none => ([.err (.schemaDoesNotExist table.schema_name)], .ok cat)
  | some none =>
    ([.err (.tableDoesNotExist (table.schema_name ++ "." ++ table.name))], .ok cat)
  | some (some _) =>
    ([.evt .tableDropped], .ok (cat.drop_table_op table.schema_name table.name))

/-- Modelled from the spec: InsertCommand validates the table at execution
    time, appends the source rows and emits RecordsInserted(n). -/
def insert_cmd (cat : Catalog) (_raw : String) (table_insert : TableInserts) :
    List Msg × Outcome Catalog :=
  let table_id := table_insert.table_id
  match cat.table_exists table_id.schema_name table_id.name with
  | none => ([.err (.schemaDoesNotExist table_id.schema_name)], .ok cat)
  | some none =>
    ([.err (.tableDoesNotExist (table_id.schema_name ++ "." ++ table_id.name))], .ok cat)
  | some (some _) =>
    let rows := match table_insert.input.body with
      | .valuesBody rs => rs
      | _ => []
    ([.evt (.recordsInserted rows.length)],
      .ok (cat.insert_rows table_id.schema_name table_id.name rows))

/-- Modelled from the spec: UpdateCommand emits RecordsUpdated(n) over the
    rows of the table or the semantic error. -/
def update_cmd (cat : Catalog) (table_name : ObjectName) : List Msg × Outcome Catalog :=
  match TableId.try_from table_name with
  | .error message => ([.err (.syntaxError message)], .ok cat)
  | .ok table_id =>
    match cat.table_exists table_id.schema_name table_id.name with
    | none => ([.err (.schemaDoesNotExist table_id.schema_name)], .ok cat)
    | some none =>
      ([.err (.tableDoesNotExist (table_id.schema_name ++ "." ++ table_id.name))], .ok cat)
    | some (some t) => ([.evt (.recordsUpdated t.rows.length)], .ok cat)

/-- Modelled from the spec: DeleteCommand removes all rows and emits
    RecordsDeleted(n) or the semantic error. -/
def delete_cmd (cat : Catalog) (table_name : ObjectName) : List Msg × Outcome Catalog :=
  match TableId.try_from table_name with
  | .error message => ([.err (.syntaxError message)], .ok cat)
  | .ok table_id =>
    match cat.table_exists table_id.schema_name table_id.name with
    | none => ([.err (.schemaDoesNotExist table_id.schema_name)], .ok cat)
    | some none =>
      ([.err (.tableDoesNotExist (table_id.schema_name ++ "." ++ table_id.name))], .ok cat)
    | some (some t) =>
      ([.evt (.recordsDeleted t.rows.length)],
        .ok (cat.delete_all_rows table_id.schema_name table_id.name))

end Database

namespace Database.QueryExecutor

/-- Loop of process_statement over DropSchemas: each command runs with the
    question-mark operator on its system result. -/
def run_drop_schemas (cat : Catalog) :
    List (SchemaId × Bool) → List Msg × Outcome Catalog
  | [] => ([], .ok cat)
  | (schema, cascade) :: rest =>
    match drop_schema_cmd cat schema cascade with
    | (msgs, .ok cat2) =>
      match run_drop_schemas cat2 rest with
      | (m2, o) => (msgs ++ m2, o)
    | other => other

/-- Loop of process_statement over DropTables. -/
def run_drop_tables (cat : Catalog) : List TableId → List Msg × Outcome Catalog
  | [] => ([], .ok cat)
  | table :: rest =>
    match drop_table_cmd cat table with
    | (msgs, .ok cat2) =>
      match run_drop_tables cat2 rest with
      | (m2, o) => (msgs ++ m2, o)
    | other => other

/-- Dispatch on the plan returned by the processor, from
    QueryExecutor::process_statement in lib.rs (including the re-match on
    the statement enclosed in NotProcessed). -/
def dispatch_plan (cat : Catalog) (raw_sql_query : String) :
    Plan → List Msg × Outcome Catalog
  | .createSchema info => create_schema_cmd cat info
  | .createTable info => create_table_cmd cat info
  | .dropSchemas schemas => run_drop_schemas cat schemas
  | .dropTables tables => run_drop_tables cat tables
  | .insert table_insert => insert_cmd cat raw_sql_query table_insert
  | .notProcessed stmt =>
    match stmt with
    | .startTransaction => ([.evt .transactionStarted], .ok cat)
    | .setVariable => ([.evt .variableSet], .ok cat)
    | .dropStmt _ _ _ => ([.err (.featureNotSupported raw_sql_query)], .ok cat)
    | .query q =>
      match SelectCommand.execute cat raw_sql_query q with
      | (msgs, .ok _) => (msgs, .ok cat)
      | (msgs, .err e) => (msgs, .err e)
      | (msgs, .panic m) => (msgs, .panic m)
    | .update table_name => update_cmd cat table_name
    | .delete table_name => delete_cmd cat table_name
    | _ => ([.err (.featureNotSupported raw_sql_query)], .ok cat)

/-- QueryExecutor::process_statement from lib.rs: run the processor and
    dispatch the plan; a rejected statement does nothing (the processor
    already emitted the error). -/
def process_statement (cat : Catalog) (raw_sql_query : String) (statement : Statement) :
    List Msg × Outcome Catalog :=
  match QueryProcessor.process cat statement with
  | (msgs, .err _) => (msgs, .ok cat)
  | (msgs, .panic m) => (msgs, .panic m)
  | (msgs, .ok plan) =>
    match dispatch_plan cat raw_sql_query plan with
    | (m2, o) => (msgs ++ m2, o)

/-- Debug rendering of the raw SQL inside the syntax error message; escaping
    of special characters is elided (every input considered here is free of
    quotes and backslashes). -/
def rust_debug (s : String) : String := "\"" ++ s ++ "\""

/-- QueryExecutor::execute from lib.rs.  The external parser result is an
    input: none models a parse error; some gives the accepted statement
    list, of which pop().unwrap() takes the last (and panics when empty). -/
def execute (cat : Catalog) (raw_sql_query : String)
    (parsed : Option (List Statement)) : List Msg × Outcome Catalog :=
  match parsed with
  | none =>
    ([.err (.syntaxError (rust_debug raw_sql_query ++ " can\x27t be parsed"))], .ok cat)
  | some statements =>
    match statements.getLast? with
    | none => ([], .panic "called Option unwrap on a None value")
    | some statement =>
      match process_statement cat raw_sql_query statement with
      | (msgs, .ok cat2) => (msgs ++ [.evt .queryComplete], .ok cat2)
      | (msgs, .err e) => (msgs, .err e)
      | (msgs, .panic m) => (msgs, .panic m)

end Database.QueryExecutor

namespace Database

/-- PreparedStatement from session/statement.rs: parsed statement, declared
    parameter types, row description. -/
structure PreparedStatement where
  stmt : Statement
  param_types : List PgType
  description : Description
deriving DecidableEq

/-- Portal from session/statement.rs: originating statement name, bound
    statement, per-column result formats. -/
structure Portal where
  statement_name : String
  stmt : Statement
  result_formats : List PgFormat
deriving DecidableEq

/-- Modelled from the spec: the Session holds two keyed mappings, prepared
    statements and portals; colliding names overwrite (modelled by a
    shadowing cons on an association list looked up front to back). -/
structure Session where
  prepared_statements : List (String × PreparedStatement)
  portals : List (String × Portal)
deriving DecidableEq

/-- Modelled from the spec: look up a prepared statement by name. -/
def Session.get_prepared_statement (sess : Session) (name : String) :
    Option PreparedStatement :=
  (sess.prepared_statements.find? (fun p => p.fst == name)).map Prod.snd

/-- Modelled from the spec: store a prepared statement under a name. -/
def Session.set_prepared_statement (sess : Session) (name : String)
    (statement : PreparedStatement) : Session :=
  { sess with prepared_statements := (name, statement) :: sess.prepared_statements }

/-- Modelled from the spec: look up a portal by name. -/
def Session.get_portal (sess : Session) (name : String) : Option Portal :=
  (sess.portals.find? (fun p => p.fst == name)).map Prod.snd

/-- Modelled from the spec: store a portal under a name. -/
def Session.set_portal (sess : Session) (portal_name statement_name : String)
    (stmt : Statement) (result_formats : List PgFormat) : Session :=
  { sess with portals := (portal_name, ⟨statement_name, stmt, result_formats⟩) :: sess.portals }

/-- Modelled from the spec: the external pieces of the bind pipeline, the
    typed parameter decoding of the protocol crate and the ParamBinder of
    query/bind.rs (neither among the provided sources).  bindParams returns
    the messages it emitted and the bound statement, or none on failure
    (binder failures are already emitted). -/
structure BindEnv where
  decode : PgType → PgFormat → List Nat → Except String PgValue
  bindParams : Statement → List PgValue → List Msg × Option Statement

/-- Parameter decoding loop of bind_prepared_statement_to_portal: a null raw
    parameter becomes the Null value, otherwise the bytes are decoded with
    the declared type and format; the first failure aborts. -/
def decode_params (env : BindEnv) :
    List (Option (List Nat)) → List PgType → List PgFormat → Except String (List PgValue)
  | [], _, _ => .ok []
  | raw :: rest, typ :: types, fmt :: fmts =>
    match raw with
    | none => (decode_params env rest types fmts).map (fun ps => PgValue.null :: ps)
    | some bytes =>
      match env.decode typ fmt bytes with
      | .ok param => (decode_params env rest types fmts).map (fun ps => param :: ps)
      | .error msg => .error msg
  | _ :: _, _, _ => .ok []

end Database

namespace Database.QueryExecutor

/-- QueryExecutor::parse_prepared_statement from lib.rs: parse with the
    prepared-statement dialect (result supplied as input), derive the row
    description for a Query statement via the select describe path, store
    the PreparedStatement and emit ParseComplete. -/
def parse_prepared_statement (cat : Catalog) (sess : Session) (statement_name : String)
    (raw_sql_query : String) (parsed : Option (List Statement))
    (param_types : List PgType) : List Msg × Outcome Session :=
  match parsed with
  | none =>
    ([.err (.syntaxError (rust_debug raw_sql_query ++ " can\x27t be parsed"))], .ok sess)
  | some statements =>
    match statements.getLast? with
    | none => ([], .panic "called Option unwrap on a None value")
    | some statement =>
      match (match statement with
             | .query q => SelectCommand.describe cat raw_sql_query q
             | _ => ([], .ok [])) with
      | (msgs, .err e) => (msgs, .err e)
      | (msgs, .panic m) => (msgs, .panic m)
      | (msgs, .ok description) =>
        (msgs ++ [.evt .parseComplete],
          .ok (sess.set_prepared_statement statement_name
            ⟨statement, param_types, description⟩))

/-- QueryExecutor::describe_prepared_statement from lib.rs. -/
def describe_prepared_statement (sess : Session) (name : String) :
    List Msg × Outcome Session :=
  match sess.get_prepared_statement name with
  | some stmt =>
    ([.evt (.preparedStatementDescribed stmt.param_types stmt.description)], .ok sess)
  | none =>
    ([.err (.preparedStatementDoesNotExist name)], .ok sess)

/-- QueryExecutor::bind_prepared_statement_to_portal from lib.rs. -/
def bind_prepared_statement_to_portal (env : BindEnv) (sess : Session)
    (portal_name statement_name : String) (param_formats : List PgFormat)
    (raw_params : List (Option (List Nat))) (result_formats : List PgFormat) :
    List Msg × Outcome Session :=
  match sess.get_prepared_statement statement_name with
  | none =>
    ([.err (.preparedStatementDoesNotExist statement_name)], .ok sess)
  | some prepared_statement =>
    if prepared_statement.param_types.length ≠ raw_params.length then
      ([.err (.protocolViolation ("Bind message supplies " ++ toString raw_params.length ++
        " parameters, but prepared statement \"" ++ statement_name ++ "\" requires " ++
        toString prepared_statement.param_types.length))], .ok sess)
    else
      match pad_formats param_formats raw_params.length with
      | .error msg => ([.err (.protocolViolation msg)], .ok sess)
      | .ok fmts =>
        match decode_params env raw_params prepared_statement.param_types fmts with
        | .error msg => ([.err (.invalidParameterValue msg)], .ok sess)
        | .ok params =>
          match env.bindParams prepared_statement.stmt params with
          | (msgs, none) => (msgs, .ok sess)
          | (msgs, some new_stmt) =>
            match pad_formats result_formats prepared_statement.description.length with
            | .error msg => (msgs ++ [.err (.protocolViolation msg)], .ok sess)
            | .ok rfmts =>
              (msgs ++ [.evt .bindComplete],
                .ok (sess.set_portal portal_name statement_name new_stmt rfmts))

end Database.QueryExecutor

namespace Database

/-- Trivial instantiation of the external bind environment, used to evaluate
    the executor on concrete inputs. -/
def trivialBindEnv : BindEnv where
  decode := fun _ _ _ => .ok PgValue.null
  bindParams := fun stmt _ => ([], some stmt)

/-- C4: pad_formats(fmts, n) returns Ok exactly for input lengths
    |fmts| in the set containing 0, 1 and n, in those cases returning a list
    of length n (all Text when |fmts| = 0, the single format repeated when
    |fmts| = 1, fmts itself when |fmts| = n); any other |fmts| yields the
    literal error message built from the mismatched pair. -/
theorem c4_pad_formats (formats : List PgFormat) (n : Nat) :
    ((formats.length = 0 ∨ formats.length = 1 ∨ formats.length = n) →
      ∃ res, pad_formats formats n = .ok res ∧ res.length = n ∧
        (formats.length = 0 → res = List.replicate n PgFormat.text) ∧
        (formats.length = 1 → res = List.replicate n (formats.headD PgFormat.text)) ∧
        (formats.length = n → res = formats)) ∧
    (formats.length ≠ 0 → formats.length ≠ 1 → formats.length ≠ n →
      pad_formats formats n = .error ("expected " ++ toString formats.length ++
        " field format specifiers, but got " ++ toString n)) := by
  constructor
  · intro h
    by_cases h0 : formats.length = 0
    · refine ⟨List.replicate n PgFormat.text, ?_, ?_, ?_, ?_, ?_⟩
      · simp [pad_formats, h0]
      · simp
      · intro _; rfl
      · intro h1; omega
      · intro hn
        have hn0 : n = 0 := by omega
        subst hn0
        simp [List.eq_nil_of_length_eq_zero h0]
    · by_cases h1 : formats.length = 1
      · obtain ⟨a, ha⟩ := List.length_eq_one.mp h1
        subst ha
        refine ⟨List.replicate n a, ?_, ?_, ?_, ?_, ?_⟩
        · simp [pad_formats]
        · simp
        · intro h; simp at h
        · intro _; rfl
        · intro hn
          have hn1 : n = 1 := by simpa using hn.symm
          subst hn1
          simp
      · have hn : formats.length = n := by tauto
        refine ⟨formats, ?_, hn, ?_, ?_, ?_⟩
        · unfold pad_formats
          rw [if_neg h0, if_neg h1, if_pos hn]
        · intro h; exact absurd h h0
        · intro h; exact absurd h h1
        · intro _; rfl
  · intro h0 h1 hn
    simp [pad_formats, h0, h1, hn]

/-- Witness for C4: the characterization applied at a concrete mismatched
    pair of lengths. -/
theorem c4_pad_formats_witness :
    pad_formats [PgFormat.binary, PgFormat.binary] 5 =
      .error "expected 2 field format specifiers, but got 5" := by
  have h := (c4_pad_formats [PgFormat.binary, PgFormat.binary] 5).2
    (by decide) (by decide) (by decide)
  rw [h]
  exact congrArg Except.error (by decide)

/-- C9: the processor type mapping sends SmallInt, Int and BigInt to the
    seeded engine types with the minimum seed, Char and Varchar to the
    length-carrying types defaulting to 255, Boolean to Bool, the custom
    serial family to seed 1, and every other type to a FeatureNotSupported
    message naming the type, with the statement rejected. -/
theorem c9_sql_type_mapping :
    QueryProcessor.sql_type_from_datatype .smallintType =
      ([], .ok (.smallInt (-32768))) ∧
    QueryProcessor.sql_type_from_datatype .intType =
      ([], .ok (.integer (-2147483648))) ∧
    QueryProcessor.sql_type_from_datatype .bigintType =
      ([], .ok (.bigInt (-9223372036854775808))) ∧
    (∀ len, QueryProcessor.sql_type_from_datatype (.charType len) =
      ([], .ok (.char (len.getD 255)))) ∧
    (∀ len, QueryProcessor.sql_type_from_datatype (.varcharType len) =
      ([], .ok (.varChar (len.getD 255)))) ∧
    QueryProcessor.sql_type_from_datatype .booleanType = ([], .ok .bool) ∧
    (∀ name, String.intercalate "." name = "serial" →
      QueryProcessor.sql_type_from_datatype (.customType name) = ([], .ok (.integer 1))) ∧
    (∀ name, String.intercalate "." name = "smallserial" →
      QueryProcessor.sql_type_from_datatype (.customType name) = ([], .ok (.smallInt 1))) ∧
    (∀ name, String.intercalate "." name = "bigserial" →
      QueryProcessor.sql_type_from_datatype (.customType name) = ([], .ok (.bigInt 1))) ∧
    (∀ name, String.intercalate "." name ≠ "serial" →
      String.intercalate "." name ≠ "smallserial" →
      String.intercalate "." name ≠ "bigserial" →
      QueryProcessor.sql_type_from_datatype (.customType name) =
        ([.err (.featureNotSupported (String.intercalate "." name ++ " type is not supported"))],
          .err "rejected")) ∧
    (∀ dt : DataType, (dt = .realType ∨ dt = .dateType ∨ dt = .uuidType ∨ dt = .textType) →
      QueryProcessor.sql_type_from_datatype dt =
        ([.err (.featureNotSupported (dt.display ++ " type is not supported"))],
          .err "rejected")) := by
  refine ⟨rfl, rfl, rfl, fun len => rfl, fun len => rfl, rfl, ?_, ?_, ?_, ?_, ?_⟩
  · intro name h
    simp [QueryProcessor.sql_type_from_datatype, h]
  · intro name h
    simp [QueryProcessor.sql_type_from_datatype, h]
  · intro name h
    simp [QueryProcessor.sql_type_from_datatype, h]
  · intro name h1 h2 h3
    simp [QueryProcessor.sql_type_from_datatype, h1, h2, h3]
  · rintro dt (rfl | rfl | rfl | rfl) <;> rfl

/-- Witness for C9: the mapping evaluated at concrete types, through the
    characterization theorem. -/
theorem c9_sql_type_mapping_witness :
    QueryProcessor.sql_type_from_datatype (.charType (some 10)) = ([], .ok (.char 10)) ∧
    QueryProcessor.sql_type_from_datatype (.customType ["serial"]) = ([], .ok (.integer 1)) ∧
    QueryProcessor.sql_type_from_datatype (.customType ["geometry"]) =
      ([.err (.featureNotSupported "geometry type is not supported")], .err "rejected") ∧
    QueryProcessor.sql_type_from_datatype .realType =
      ([.err (.featureNotSupported "real type is not supported")], .err "rejected") := by
  have h := c9_sql_type_mapping
  refine ⟨h.2.2.2.1 (some 10), h.2.2.2.2.2.2.1 ["serial"] (by decide), ?_, ?_⟩
  · have := h.2.2.2.2.2.2.2.2.2.1 ["geometry"] (by decide) (by decide) (by decide)
    rw [this]
    exact congrArg _ (by decide)
  · exact h.2.2.2.2.2.2.2.2.2.2 .realType (Or.inl rfl)

end Database

namespace Database

/-- C6: when the named prepared statement exists but the supplied parameter
    count differs from the declared one, bind emits exactly one
    ProtocolViolation with the literal supplies/requires message, emits no
    BindComplete, stores no portal (the session is unchanged) and returns
    Ok, for every behaviour of the external decoder and binder. -/
theorem c6_bind_param_count_mismatch (env : BindEnv) (sess : Session)
    (portal_name statement_name : String) (param_formats : List PgFormat)
    (raw_params : List (Option (List Nat))) (result_formats : List PgFormat)
    (ps : PreparedStatement)
    (hfound : sess.get_prepared_statement statement_name = some ps)
    (hmis : ps.param_types.length ≠ raw_params.length) :
    QueryExecutor.bind_prepared_statement_to_portal env sess portal_name statement_name
        param_formats raw_params result_formats =
      ([.err (.protocolViolation ("Bind message supplies " ++ toString raw_params.length ++
        " parameters, but prepared statement \"" ++ statement_name ++ "\" requires " ++
        toString ps.param_types.length))], .ok sess) := by
  unfold QueryExecutor.bind_prepared_statement_to_portal
  rw [hfound]
  simp [hmis]

/-- Witness for C6: scenario S5 of the spec, a statement with zero declared
    parameters bound with one null parameter. -/
theorem c6_bind_param_count_mismatch_witness :
    QueryExecutor.bind_prepared_statement_to_portal trivialBindEnv
        ⟨[("s1", ⟨Statement.startTransaction, [], []⟩)], []⟩ "p1" "s1" [] [none] [] =
      ([.err (.protocolViolation
        "Bind message supplies 1 parameters, but prepared statement \"s1\" requires 0")],
        .ok ⟨[("s1", ⟨Statement.startTransaction, [], []⟩)], []⟩) := by
  have h := c6_bind_param_count_mismatch trivialBindEnv
    ⟨[("s1", ⟨Statement.startTransaction, [], []⟩)], []⟩ "p1" "s1" [] [none] []
    ⟨Statement.startTransaction, [], []⟩ (by decide) (by decide)
  rw [h]
  refine congrArg (fun m => ([Msg.err (.protocolViolation m)], Outcome.ok
    (⟨[("s1", ⟨Statement.startTransaction, [], []⟩)], []⟩ : Session))) (by decide)

/-- C2 (code bug): for SELECT * FROM t, whose source name has a single
    segment, the select input parser reads name segment 1 of a one-segment
    name and panics with an out-of-bounds index; no FeatureNotSupported and
    no QueryComplete is emitted, and the surrounding execute call panics
    instead of returning Ok. -/
theorem c2_single_segment_select_panics (cat : Catalog) :
    SelectCommand.parse_select_input cat "SELECT * FROM t"
        ⟨SetExpr.selectBody [SelectItem.wildcard] [⟨TableFactor.table ["t"], []⟩]⟩ =
      ([], .panic "index out of bounds") ∧
    QueryExecutor.execute cat "SELECT * FROM t"
        (some [Statement.query ⟨SetExpr.selectBody [SelectItem.wildcard]
          [⟨TableFactor.table ["t"], []⟩]⟩]) =
      ([], .panic "index out of bounds") := by
  constructor
  · rfl
  · rfl

/-- C3 counterexample: a query with two tables in the FROM clause is not
    rejected; the select command silently scans only the first table and
    emits RecordsSelected, with no FeatureNotSupported. -/
theorem c3_counterexample_multi_from_scans_first :
    SelectCommand.execute
        ⟨[⟨"s", [⟨"t", [⟨"a", .smallInt (-32768)⟩], [["1"]]⟩,
                 ⟨"u", [⟨"b", .bool⟩], []⟩]⟩]⟩
        "SELECT a FROM s.t, s.u"
        ⟨SetExpr.selectBody [SelectItem.unnamedExpr (Expr.identifier "a")]
          [⟨TableFactor.table ["s", "t"], []⟩, ⟨TableFactor.table ["s", "u"], []⟩]⟩ =
      ([.evt (.recordsSelected [("a", .smallint)] [["1"]])], .ok ()) := by
  decide

/-- C3 (amended): a query body that is not a top-level Select, or whose
    first FROM item is not addressed through TableFactor::Table, makes both
    select paths emit FeatureNotSupported and perform no scan; but joins and
    FROM items after the first are silently ignored rather than rejected:
    parsing the select input behaves exactly as if only the first table
    reference were present. -/
theorem c3_select_input_shape (cat : Catalog) (raw : String) :
    (∀ q : Query,
      (∀ projection fromClause, q.body ≠ SetExpr.selectBody projection fromClause) →
      SelectCommand.parse_select_input cat raw q =
        ([.err (.featureNotSupported raw)], .err "Feature Not Supported") ∧
      SelectCommand.execute cat raw q = ([.err (.featureNotSupported raw)], .ok ()) ∧
      SelectCommand.describe cat raw q =
        ([.err (.featureNotSupported raw)], .err "Feature Not Supported")) ∧
    (∀ projection joins rest,
      SelectCommand.parse_select_input cat raw
          ⟨SetExpr.selectBody projection (⟨TableFactor.otherFactor, joins⟩ :: rest)⟩ =
        ([.err (.featureNotSupported raw)], .err "Feature Not Supported") ∧
      SelectCommand.execute cat raw
          ⟨SetExpr.selectBody projection (⟨TableFactor.otherFactor, joins⟩ :: rest)⟩ =
        ([.err (.featureNotSupported raw)], .ok ()) ∧
      SelectCommand.describe cat raw
          ⟨SetExpr.selectBody projection (⟨TableFactor.otherFactor, joins⟩ :: rest)⟩ =
        ([.err (.featureNotSupported raw)], .err "Feature Not Supported")) ∧
    (∀ projection name joins rest,
      SelectCommand.parse_select_input cat raw
          ⟨SetExpr.selectBody projection (⟨TableFactor.table name, joins⟩ :: rest)⟩ =
        SelectCommand.parse_select_input cat raw
          ⟨SetExpr.selectBody projection [⟨TableFactor.table name, []⟩]⟩) := by
  refine ⟨?_, ?_, ?_⟩
  · rintro ⟨body⟩ h
    cases body with
    | selectBody projection fromClause => exact absurd rfl (h projection fromClause)
    | queryBody => exact ⟨rfl, rfl, rfl⟩
    | valuesBody rows => exact ⟨rfl, rfl, rfl⟩
    | setOperationBody => exact ⟨rfl, rfl, rfl⟩
  · intro projection joins rest
    exact ⟨rfl, rfl, rfl⟩
  · intro projection name joins rest
    rfl

/-- Witness for C3: the amended theorem applied to a set-operation body and
    to a derived-table FROM item. -/
theorem c3_select_input_shape_witness :
    SelectCommand.parse_select_input ⟨[]⟩ "SELECT 1 UNION SELECT 2"
        ⟨SetExpr.setOperationBody⟩ =
      ([.err (.featureNotSupported "SELECT 1 UNION SELECT 2")],
        .err "Feature Not Supported") ∧
    SelectCommand.execute ⟨[]⟩ "SELECT a FROM (SELECT a FROM s.t) x"
        ⟨SetExpr.selectBody [SelectItem.unnamedExpr (Expr.identifier "a")]
          [⟨TableFactor.otherFactor, []⟩]⟩ =
      ([.err (.featureNotSupported "SELECT a FROM (SELECT a FROM s.t) x")], .ok ()) := by
  constructor
  · exact ((c3_select_input_shape ⟨[]⟩ "SELECT 1 UNION SELECT 2").1
      ⟨SetExpr.setOperationBody⟩ (fun p f h => nomatch h)).1
  · exact ((c3_select_input_shape ⟨[]⟩ "SELECT a FROM (SELECT a FROM s.t) x").2.1
      [SelectItem.unnamedExpr (Expr.identifier "a")] [] []).2.1

end Database

namespace Database

/-- The projection loop never emits QueryComplete. -/
theorem qc_not_mem_selected_columns_loop (cat : Catalog) (s t raw : String) :
    ∀ items, Msg.evt QueryEvent.queryComplete ∉
      (SelectCommand.selected_columns_loop cat s t raw items).1 := by
  intro items
  induction items with
  | nil => simp [SelectCommand.selected_columns_loop]
  | cons item rest ih =>
    cases item with
    | wildcard =>
      unfold SelectCommand.selected_columns_loop
      rcases h : SelectCommand.selected_columns_loop cat s t raw rest with ⟨msgs, o⟩
      rw [h] at ih
      cases o <;> simpa using ih
    | unnamedExpr e =>
      cases e with
      | identifier v =>
        unfold SelectCommand.selected_columns_loop
        rcases h : SelectCommand.selected_columns_loop cat s t raw rest with ⟨msgs, o⟩
        rw [h] at ih
        cases o <;> simpa using ih
      | otherExpr => simp [SelectCommand.selected_columns_loop]
    | otherItem => simp [SelectCommand.selected_columns_loop]


/-- The select input parser never emits QueryComplete. -/
theorem qc_not_mem_parse_select_input (cat : Catalog) (raw : String) (q : Query) :
    Msg.evt QueryEvent.queryComplete ∉ (SelectCommand.parse_select_input cat raw q).1 := by
  rcases q with ⟨body⟩
  cases body with
  | selectBody projection fromClause =>
    cases fromClause with
    | nil => simp [SelectCommand.parse_select_input]
    | cons twj rest =>
      rcases twj with ⟨relation, joins⟩
      cases relation with
      | table name =>
        rcases name with _ | ⟨a, _ | ⟨b, restn⟩⟩
        · simp [SelectCommand.parse_select_input]
        · simp [SelectCommand.parse_select_input]
        · rcases he : cat.table_exists a b with _ | _ | td
          · simp [SelectCommand.parse_select_input, he]
          · simp [SelectCommand.parse_select_input, he]
          · rcases hl : SelectCommand.selected_columns_loop cat a b raw projection
              with ⟨msgs, o⟩
            have hm := qc_not_mem_selected_columns_loop cat a b raw projection
            rw [hl] at hm
            cases o with
            | ok sc => simp [SelectCommand.parse_select_input, he, hl]; simpa using hm
            | err e => simp [SelectCommand.parse_select_input, he, hl]; simpa using hm
            | panic m => simp [SelectCommand.parse_select_input, he, hl]; simpa using hm
      | otherFactor => simp [SelectCommand.parse_select_input]
  | queryBody => simp [SelectCommand.parse_select_input]
  | valuesBody rows => simp [SelectCommand.parse_select_input]
  | setOperationBody => simp [SelectCommand.parse_select_input]

/-- The select execute path never emits QueryComplete. -/
theorem qc_not_mem_select_execute (cat : Catalog) (raw : String) (q : Query) :
    Msg.evt QueryEvent.queryComplete ∉ (SelectCommand.execute cat raw q).1 := by
  have hp := qc_not_mem_parse_select_input cat raw q
  unfold SelectCommand.execute
  rcases h : SelectCommand.parse_select_input cat raw q with ⟨msgs, o⟩
  rw [h] at hp
  cases o with
  | ok input =>
    simp only
    split
    · simpa using hp
    · simpa using hp
  | err e => simpa using hp
  | panic m => simpa using hp

/-- The type mapping never emits QueryComplete. -/
theorem qc_not_mem_sql_type_from_datatype (dt : DataType) :
    Msg.evt QueryEvent.queryComplete ∉ (QueryProcessor.sql_type_from_datatype dt).1 := by
  cases dt with
  | customType name =>
    simp only [QueryProcessor.sql_type_from_datatype]
    split_ifs <;> simp
  | charType len => simp [QueryProcessor.sql_type_from_datatype]
  | varcharType len => simp [QueryProcessor.sql_type_from_datatype]
  | _ => simp [QueryProcessor.sql_type_from_datatype]

/-- The column resolution of the processor never emits QueryComplete. -/
theorem qc_not_mem_resolve_column_definitions (columns : List ColumnDefAst) :
    Msg.evt QueryEvent.queryComplete ∉
      (QueryProcessor.resolve_column_definitions columns).1 := by
  induction columns with
  | nil => simp [QueryProcessor.resolve_column_definitions]
  | cons column rest ih =>
    unfold QueryProcessor.resolve_column_definitions
    rcases h : QueryProcessor.sql_type_from_datatype column.data_type with ⟨msgs, o⟩
    have hs := qc_not_mem_sql_type_from_datatype column.data_type
    rw [h] at hs
    cases o with
    | ok ty =>
      rcases h2 : QueryProcessor.resolve_column_definitions rest with ⟨m2, o2⟩
      rw [h2] at ih
      cases o2 <;> simp_all
    | err e => simpa using hs
    | panic m => simpa using hs

/-- The drop-tables iteration of the processor never emits QueryComplete. -/
theorem qc_not_mem_drop_tables_loop (cat : Catalog) :
    ∀ names, Msg.evt QueryEvent.queryComplete ∉
      (QueryProcessor.drop_tables_loop cat names).1 := by
  intro names
  induction names with
  | nil => simp [QueryProcessor.drop_tables_loop]
  | cons name rest ih =>
    unfold QueryProcessor.drop_tables_loop
    rcases ht : TableId.try_from name with message | table_id
    · simp [ht]
    · rcases he : cat.table_exists table_id.schema_name table_id.name with _ | _ | td
      · simp [ht, he]
      · simp [ht, he]
      · rcases h : QueryProcessor.drop_tables_loop cat rest with ⟨msgs, o⟩
        rw [h] at ih
        cases o with
        | ok ids => simp [ht, he, h]; simpa using ih
        | err e => simp [ht, he, h]; simpa using ih
        | panic m => simp [ht, he, h]; simpa using ih

/-- The drop-schemas iteration of the processor never emits QueryComplete. -/
theorem qc_not_mem_drop_schemas_loop (cat : Catalog) (cascade : Bool) :
    ∀ names, Msg.evt QueryEvent.queryComplete ∉
      (QueryProcessor.drop_schemas_loop cat cascade names).1 := by
  intro names
  induction names with
  | nil => simp [QueryProcessor.drop_schemas_loop]
  | cons name rest ih =>
    unfold QueryProcessor.drop_schemas_loop
    rcases hs : SchemaId.try_from name with message | schema_id
    · simp [hs]
    · rcases he : cat.schema_exists schema_id.name with _ | sd
      · simp [hs, he]
      · rcases h : QueryProcessor.drop_schemas_loop cat cascade rest with ⟨msgs, o⟩
        rw [h] at ih
        cases o with
        | ok ids => simp [hs, he, h]; simpa using ih
        | err e => simp [hs, he, h]; simpa using ih
        | panic m => simp [hs, he, h]; simpa using ih

/-- The processor never emits QueryComplete. -/
theorem qc_not_mem_process (cat : Catalog) (stmt : Statement) :
    Msg.evt QueryEvent.queryComplete ∉ (QueryProcessor.process cat stmt).1 := by
  cases stmt with
  | createTable name columns =>
    unfold QueryProcessor.process QueryProcessor.handle_create_table
    rcases ht : TableId.try_from name with message | table_id
    · simp [ht]
    · rcases he : cat.table_exists table_id.schema_name table_id.name with _ | _ | td
      · simp [ht, he]
      · rcases h : QueryProcessor.resolve_column_definitions columns with ⟨msgs, o⟩
        have hr := qc_not_mem_resolve_column_definitions columns
        rw [h] at hr
        cases o with
        | ok defs => simp [ht, he, h]; simpa using hr
        | err e => simp [ht, he, h]; simpa using hr
        | panic m => simp [ht, he, h]; simpa using hr
      · simp [ht, he]
  | createSchema schema_name =>
    unfold QueryProcessor.process
    rcases hs : SchemaId.try_from schema_name with message | schema_id
    · simp [hs]
    · rcases he : cat.schema_exists schema_id.name with _ | sd
      · simp [hs, he]
      · simp [hs, he]
  | dropStmt object_type names cascade =>
    unfold QueryProcessor.process QueryProcessor.handle_drop
    cases object_type with
    | table =>
      rcases h : QueryProcessor.drop_tables_loop cat names with ⟨msgs, o⟩
      have hl := qc_not_mem_drop_tables_loop cat names
      rw [h] at hl
      cases o with
      | ok ids => simp [h]; simpa using hl
      | err e => simp [h]; simpa using hl
      | panic m => simp [h]; simpa using hl
    | schema =>
      rcases h : QueryProcessor.drop_schemas_loop cat cascade names with ⟨msgs, o⟩
      have hl := qc_not_mem_drop_schemas_loop cat cascade names
      rw [h] at hl
      cases o with
      | ok ids => simp [h]; simpa using hl
      | err e => simp [h]; simpa using hl
      | panic m => simp [h]; simpa using hl
    | otherObject => simp
  | insert table_name columns source =>
    unfold QueryProcessor.process
    rcases ht : TableId.try_from table_name with message | table_id
    · simp [ht]
    · simp [ht]
  | startTransaction => simp [QueryProcessor.process]
  | setVariable => simp [QueryProcessor.process]
  | query q => simp [QueryProcessor.process]
  | update table_name => simp [QueryProcessor.process]
  | delete table_name => simp [QueryProcessor.process]
  | otherStatement => simp [QueryProcessor.process]

/-- The create-schema command never emits QueryComplete. -/
theorem qc_not_mem_create_schema_cmd (cat : Catalog) (info : SchemaCreationInfo) :
    Msg.evt QueryEvent.queryComplete ∉ (create_schema_cmd cat info).1 := by
  unfold create_schema_cmd
  rcases h : cat.schema_exists info.schema_name with _ | sd <;> simp [h]

/-- The create-table command never emits QueryComplete. -/
theorem qc_not_mem_create_table_cmd (cat : Catalog) (info : TableCreationInfo) :
    Msg.evt QueryEvent.queryComplete ∉ (create_table_cmd cat info).1 := by
  unfold create_table_cmd
  rcases h : cat.table_exists info.schema_name info.table_name with _ | _ | td <;> simp [h]

/-- The drop-schema command never emits QueryComplete. -/
theorem qc_not_mem_drop_schema_cmd (cat : Catalog) (schema : SchemaId) (cascade : Bool) :
    Msg.evt QueryEvent.queryComplete ∉ (drop_schema_cmd cat schema cascade).1 := by
  unfold drop_schema_cmd
  rcases h : cat.schema_exists schema.name with _ | sd <;> simp [h]

/-- The drop-table command never emits QueryComplete. -/
theorem qc_not_mem_drop_table_cmd (cat : Catalog) (table : TableId) :
    Msg.evt QueryEvent.queryComplete ∉ (drop_table_cmd cat table).1 := by
  unfold drop_table_cmd
  rcases h : cat.table_exists table.schema_name table.name with _ | _ | td <;> simp [h]

/-- The insert command never emits QueryComplete. -/
theorem qc_not_mem_insert_cmd (cat : Catalog) (raw : String) (ti : TableInserts) :
    Msg.evt QueryEvent.queryComplete ∉ (insert_cmd cat raw ti).1 := by
  unfold insert_cmd
  rcases h : cat.table_exists ti.table_id.schema_name ti.table_id.name with _ | _ | td <;>
    simp [h]

/-- The update command never emits QueryComplete. -/
theorem qc_not_mem_update_cmd (cat : Catalog) (table_name : ObjectName) :
    Msg.evt QueryEvent.queryComplete ∉ (update_cmd cat table_name).1 := by
  unfold update_cmd
  rcases ht : TableId.try_from table_name with message | table_id
  · simp [ht]
  · rcases h : cat.table_exists table_id.schema_name table_id.name with _ | _ | td <;>
      simp [ht, h]

/-- The delete command never emits QueryComplete. -/
theorem qc_not_mem_delete_cmd (cat : Catalog) (table_name : ObjectName) :
    Msg.evt QueryEvent.queryComplete ∉ (delete_cmd cat table_name).1 := by
  unfold delete_cmd
  rcases ht : TableId.try_from table_name with message | table_id
  · simp [ht]
  · rcases h : cat.table_exists table_id.schema_name table_id.name with _ | _ | td <;>
      simp [ht, h]

/-- The drop-schemas run loop never emits QueryComplete. -/
theorem qc_not_mem_run_drop_schemas (xs : List (SchemaId × Bool)) : ∀ cat : Catalog,
    Msg.evt QueryEvent.queryComplete ∉ (QueryExecutor.run_drop_schemas cat xs).1 := by
  induction xs with
  | nil => intro cat; simp [QueryExecutor.run_drop_schemas]
  | cons x rest ih =>
    intro cat
    rcases x with ⟨schema, cascade⟩
    unfold QueryExecutor.run_drop_schemas
    rcases h : drop_schema_cmd cat schema cascade with ⟨msgs, o⟩
    have hc := qc_not_mem_drop_schema_cmd cat schema cascade
    rw [h] at hc
    cases o with
    | ok cat2 =>
      rcases h2 : QueryExecutor.run_drop_schemas cat2 rest with ⟨m2, o2⟩
      have h3 := ih cat2
      rw [h2] at h3
      simp [h, h2]
      exact ⟨by simpa using hc, by simpa using h3⟩
    | err e => simp [h]; simpa using hc
    | panic m => simp [h]; simpa using hc

/-- The drop-tables run loop never emits QueryComplete. -/
theorem qc_not_mem_run_drop_tables (xs : List TableId) : ∀ cat : Catalog,
    Msg.evt QueryEvent.queryComplete ∉ (QueryExecutor.run_drop_tables cat xs).1 := by
  induction xs with
  | nil => intro cat; simp [QueryExecutor.run_drop_tables]
  | cons x rest ih =>
    intro cat
    unfold QueryExecutor.run_drop_tables
    rcases h : drop_table_cmd cat x with ⟨msgs, o⟩
    have hc := qc_not_mem_drop_table_cmd cat x
    rw [h] at hc
    cases o with
    | ok cat2 =>
      rcases h2 : QueryExecutor.run_drop_tables cat2 rest with ⟨m2, o2⟩
      have h3 := ih cat2
      rw [h2] at h3
      simp [h, h2]
      exact ⟨by simpa using hc, by simpa using h3⟩
    | err e => simp [h]; simpa using hc
    | panic m => simp [h]; simpa using hc

/-- Plan dispatch never emits QueryComplete. -/
theorem qc_not_mem_dispatch_plan (cat : Catalog) (raw : String) (plan : Plan) :
    Msg.evt QueryEvent.queryComplete ∉ (QueryExecutor.dispatch_plan cat raw plan).1 := by
  cases plan with
  | createSchema info =>
    simpa [QueryExecutor.dispatch_plan] using qc_not_mem_create_schema_cmd cat info
  | createTable info =>
    simpa [QueryExecutor.dispatch_plan] using qc_not_mem_create_table_cmd cat info
  | dropSchemas schemas =>
    simpa [QueryExecutor.dispatch_plan] using qc_not_mem_run_drop_schemas schemas cat
  | dropTables tables =>
    simpa [QueryExecutor.dispatch_plan] using qc_not_mem_run_drop_tables tables cat
  | insert table_insert =>
    simpa [QueryExecutor.dispatch_plan] using qc_not_mem_insert_cmd cat raw table_insert
  | notProcessed stmt =>
    cases stmt with
    | query q =>
      unfold QueryExecutor.dispatch_plan
      rcases h : SelectCommand.execute cat raw q with ⟨msgs, o⟩
      have hs := qc_not_mem_select_execute cat raw q
      rw [h] at hs
      cases o with
      | ok u => simp [h]; simpa using hs
      | err e => simp [h]; simpa using hs
      | panic m => simp [h]; simpa using hs
    | update table_name =>
      simpa [QueryExecutor.dispatch_plan] using qc_not_mem_update_cmd cat table_name
    | delete table_name =>
      simpa [QueryExecutor.dispatch_plan] using qc_not_mem_delete_cmd cat table_name
    | startTransaction => simp [QueryExecutor.dispatch_plan]
    | setVariable => simp [QueryExecutor.dispatch_plan]
    | dropStmt o n c => simp [QueryExecutor.dispatch_plan]
    | createTable n c => simp [QueryExecutor.dispatch_plan]
    | createSchema n => simp [QueryExecutor.dispatch_plan]
    | insert n c s => simp [QueryExecutor.dispatch_plan]
    | otherStatement => simp [QueryExecutor.dispatch_plan]

/-- process_statement never emits QueryComplete: the terminal framing event
    is emitted only by execute itself. -/
theorem qc_not_mem_process_statement (cat : Catalog) (raw : String) (stmt : Statement) :
    Msg.evt QueryEvent.queryComplete ∉ (QueryExecutor.process_statement cat raw stmt).1 := by
  unfold QueryExecutor.process_statement
  rcases h : QueryProcessor.process cat stmt with ⟨msgs, o⟩
  have hp := qc_not_mem_process cat stmt
  rw [h] at hp
  cases o with
  | ok plan =>
    rcases h2 : QueryExecutor.dispatch_plan cat raw plan with ⟨m2, o2⟩
    have hd := qc_not_mem_dispatch_plan cat raw plan
    rw [h2] at hd
    simp [h, h2]
    exact ⟨by simpa using hp, by simpa using hd⟩
  | err e => simp [h]; simpa using hp
  | panic m => simp [h]; simpa using hp

/-- Shape of a successful execute over an accepted statement list: the
    emitted messages are the dispatch messages followed by exactly one
    terminal QueryComplete. -/
theorem execute_some_ok_shape (cat : Catalog) (raw : String) (stmts : List Statement)
    (msgs : List Msg) (cat2 : Catalog)
    (h : QueryExecutor.execute cat raw (some stmts) = (msgs, .ok cat2)) :
    ∃ body, msgs = body ++ [Msg.evt QueryEvent.queryComplete] ∧
      Msg.evt QueryEvent.queryComplete ∉ body := by
  simp only [QueryExecutor.execute] at h
  rcases hl : stmts.getLast? with _ | stmt
  · rw [hl] at h
    have h2 : (([] : List Msg),
        Outcome.panic (α := Catalog) "called Option unwrap on a None value") =
        (msgs, Outcome.ok cat2) := h
    simp at h2
  · rw [hl] at h
    have h2 : (match QueryExecutor.process_statement cat raw stmt with
        | (m, Outcome.ok c) => (m ++ [Msg.evt QueryEvent.queryComplete], Outcome.ok c)
        | (m, Outcome.err e) => (m, Outcome.err e)
        | (m, Outcome.panic p) => (m, Outcome.panic p)) = (msgs, Outcome.ok cat2) := h
    rcases hp : QueryExecutor.process_statement cat raw stmt with ⟨pmsgs, o⟩
    rw [hp] at h2
    cases o with
    | ok c =>
      have h3 : (pmsgs ++ [Msg.evt QueryEvent.queryComplete], Outcome.ok c) =
          (msgs, Outcome.ok cat2) := h2
      rw [Prod.mk.injEq] at h3
      obtain ⟨h4, _⟩ := h3
      refine ⟨pmsgs, h4.symm, ?_⟩
      have hq := qc_not_mem_process_statement cat raw stmt
      rw [hp] at hq
      exact hq
    | err e =>
      have h3 : (pmsgs, Outcome.err (α := Catalog) e) = (msgs, Outcome.ok cat2) := h2
      simp at h3
    | panic m =>
      have h3 : (pmsgs, Outcome.panic (α := Catalog) m) = (msgs, Outcome.ok cat2) := h2
      simp at h3

/-- C1 (amended): when the parser accepts the input, a call to execute that
    returns Ok emits exactly one QueryComplete, as the final event; when
    parsing fails, the call still returns Ok but the sender receives only
    the SyntaxError and no QueryComplete. -/
theorem c1_query_complete_framing :
    (∀ (cat : Catalog) (raw : String), QueryExecutor.execute cat raw none =
      ([.err (.syntaxError (QueryExecutor.rust_debug raw ++ " can\x27t be parsed"))],
        .ok cat)) ∧
    (∀ (cat : Catalog) (raw : String) (stmts : List Statement) (msgs : List Msg)
      (cat2 : Catalog),
      QueryExecutor.execute cat raw (some stmts) = (msgs, .ok cat2) →
      ∃ body, msgs = body ++ [Msg.evt QueryEvent.queryComplete] ∧
        Msg.evt QueryEvent.queryComplete ∉ body) :=
  ⟨fun _ _ => rfl,
   fun cat raw stmts msgs cat2 h => execute_some_ok_shape cat raw stmts msgs cat2 h⟩

/-- Witness for C1: the framing applied to a concrete accepted statement. -/
theorem c1_query_complete_framing_witness :
    ∃ body, [Msg.evt QueryEvent.transactionStarted, Msg.evt QueryEvent.queryComplete] =
      body ++ [Msg.evt QueryEvent.queryComplete] ∧
      Msg.evt QueryEvent.queryComplete ∉ body :=
  c1_query_complete_framing.2 ⟨[]⟩ "START TRANSACTION" [Statement.startTransaction]
    [Msg.evt QueryEvent.transactionStarted, Msg.evt QueryEvent.queryComplete] ⟨[]⟩
    (by decide)

/-- C1 counterexample: a call whose input fails to parse returns Ok but the
    sender receives only the SyntaxError and no QueryComplete at all,
    refuting the claimed parse-failure case. -/
theorem c1_counterexample_parse_error :
    QueryExecutor.execute ⟨[]⟩ "SELEKT 1" none =
      ([.err (.syntaxError "\"SELEKT 1\" can\x27t be parsed")], .ok ⟨[]⟩) ∧
    Msg.evt QueryEvent.queryComplete ∉ (QueryExecutor.execute ⟨[]⟩ "SELEKT 1" none).1 := by
  constructor
  · decide
  · decide

/-- C10: over an accepted list of two or more statements, execute behaves
    exactly as if only the last statement had been submitted: earlier
    statements produce no plan, no catalog effect and no sender event, and a
    successful call still emits a single trailing QueryComplete. -/
theorem c10_only_last_statement_dispatched (cat : Catalog) (raw : String)
    (stmts : List Statement) (s : Statement) (_hne : stmts ≠ []) :
    QueryExecutor.execute cat raw (some (stmts ++ [s])) =
      QueryExecutor.execute cat raw (some [s]) ∧
    (∀ (msgs : List Msg) (cat2 : Catalog),
      QueryExecutor.execute cat raw (some (stmts ++ [s])) = (msgs, .ok cat2) →
      ∃ body, msgs = body ++ [Msg.evt QueryEvent.queryComplete] ∧
        Msg.evt QueryEvent.queryComplete ∉ body) := by
  constructor
  · simp only [QueryExecutor.execute]
    rw [List.getLast?_concat]
    rfl
  · intro msgs cat2 h
    exact execute_some_ok_shape cat raw (stmts ++ [s]) msgs cat2 h

/-- Witness for C10: a two-statement list dispatches only the second. -/
theorem c10_only_last_statement_dispatched_witness :
    QueryExecutor.execute ⟨[]⟩ "START TRANSACTION; SET a = 1"
        (some [Statement.startTransaction, Statement.setVariable]) =
      QueryExecutor.execute ⟨[]⟩ "START TRANSACTION; SET a = 1"
        (some [Statement.setVariable]) :=
  (c10_only_last_statement_dispatched ⟨[]⟩ "START TRANSACTION; SET a = 1"
    [Statement.startTransaction] Statement.setVariable (by decide)).1

/-- The describe-side column search agrees with the execute-side indexed
    search on the found definition. -/
theorem find_column_only_eq_find_column (c : String) :
    ∀ (cols : List ColumnDefinition) (idx : Nat),
      SelectCommand.find_column_only cols c =
        (SelectCommand.find_column idx cols c).map Prod.snd := by
  intro cols
  induction cols with
  | nil => intro idx; rfl
  | cons d ds ih =>
    intro idx
    unfold SelectCommand.find_column_only SelectCommand.find_column
    by_cases h : d.has_name c
    · simp [h]
    · simp [h, ih (idx + 1)]

/-- describe and execute compute the same list of missing columns. -/
theorem resolve_desc_missing_eq (all : List ColumnDefinition) :
    ∀ sel : List String, (SelectCommand.resolve_desc all sel).2 =
      (SelectCommand.resolve_exec all sel).2.2 := by
  intro sel
  induction sel with
  | nil => rfl
  | cons c cs ih =>
    unfold SelectCommand.resolve_desc SelectCommand.resolve_exec
    rw [find_column_only_eq_find_column c all 0]
    rcases h : SelectCommand.find_column 0 all c with _ | ⟨i, d⟩
    · simpa using ih
    · simpa using ih

/-- C7: with at least one selected column missing from the catalog columns,
    execute emits ColumnDoesNotExist with the missing names and returns Ok,
    while describe emits the same error and returns the RuntimeCheckFailure
    system error; neither emits RecordsSelected or produces a description. -/
theorem c7_unknown_columns (cat : Catalog) (raw : String) (q : Query)
    (input : SelectCommand.SelectInput)
    (hparse : SelectCommand.parse_select_input cat raw q = ([], .ok input))
    (hmiss : (SelectCommand.resolve_exec
      (cat.table_columns input.schema_name input.table_name)
      input.selected_columns).2.2 ≠ []) :
    SelectCommand.execute cat raw q =
      ([.err (.columnDoesNotExist ((SelectCommand.resolve_exec
        (cat.table_columns input.schema_name input.table_name)
        input.selected_columns).2.2))], .ok ()) ∧
    SelectCommand.describe cat raw q =
      ([.err (.columnDoesNotExist ((SelectCommand.resolve_exec
        (cat.table_columns input.schema_name input.table_name)
        input.selected_columns).2.2))], .err "Column Does Not Exist") := by
  constructor
  · simp [SelectCommand.execute, hparse, hmiss]
  · simp [SelectCommand.describe, hparse,
      resolve_desc_missing_eq (cat.table_columns input.schema_name input.table_name)
        input.selected_columns, hmiss]

/-- Witness for C7: scenario S2 of the spec, selecting an unknown column c
    from a one-column table. -/
theorem c7_unknown_columns_witness :
    SelectCommand.execute
        ⟨[⟨"s", [⟨"t", [⟨"a", .smallInt (-32768)⟩], []⟩]⟩]⟩ "SELECT c FROM s.t"
        ⟨SetExpr.selectBody [SelectItem.unnamedExpr (Expr.identifier "c")]
          [⟨TableFactor.table ["s", "t"], []⟩]⟩ =
      ([.err (.columnDoesNotExist ["c"])], .ok ()) ∧
    SelectCommand.describe
        ⟨[⟨"s", [⟨"t", [⟨"a", .smallInt (-32768)⟩], []⟩]⟩]⟩ "SELECT c FROM s.t"
        ⟨SetExpr.selectBody [SelectItem.unnamedExpr (Expr.identifier "c")]
          [⟨TableFactor.table ["s", "t"], []⟩]⟩ =
      ([.err (.columnDoesNotExist ["c"])], .err "Column Does Not Exist") := by
  have h := c7_unknown_columns
    ⟨[⟨"s", [⟨"t", [⟨"a", .smallInt (-32768)⟩], []⟩]⟩]⟩ "SELECT c FROM s.t"
    ⟨SetExpr.selectBody [SelectItem.unnamedExpr (Expr.identifier "c")]
      [⟨TableFactor.table ["s", "t"], []⟩]⟩
    ⟨"s", "t", ["c"]⟩ (by decide) (by decide)
  exact ⟨h.1.trans (by decide), h.2.trans (by decide)⟩

/-- Looking up the name just stored returns the stored prepared statement. -/
theorem get_set_prepared_statement (sess : Session) (name : String)
    (ps : PreparedStatement) :
    (sess.set_prepared_statement name ps).get_prepared_statement name = some ps := by
  simp [Session.get_prepared_statement, Session.set_prepared_statement]

/-- C8: a parse_prepared_statement call that emits ParseComplete stores the
    statement under the name with the given parameter types and the computed
    description, and an immediately following describe_prepared_statement
    emits PreparedStatementDescribed carrying exactly that stored pair. -/
theorem c8_parse_then_describe (cat : Catalog) (sess : Session)
    (statement_name raw : String) (parsed : Option (List Statement))
    (param_types : List PgType) (msgs : List Msg) (sess2 : Session)
    (hok : QueryExecutor.parse_prepared_statement cat sess statement_name raw parsed
      param_types = (msgs, .ok sess2))
    (hpc : Msg.evt QueryEvent.parseComplete ∈ msgs) :
    ∃ stmt description,
      sess2.get_prepared_statement statement_name =
        some ⟨stmt, param_types, description⟩ ∧
      QueryExecutor.describe_prepared_statement sess2 statement_name =
        ([.evt (.preparedStatementDescribed param_types description)], .ok sess2) := by
  simp only [QueryExecutor.parse_prepared_statement] at hok
  rcases parsed with _ | stmts
  · have h2 : ([Msg.err (QueryError.syntaxError
        (QueryExecutor.rust_debug raw ++ " can\x27t be parsed"))], Outcome.ok sess) =
        (msgs, Outcome.ok sess2) := hok
    rw [Prod.mk.injEq] at h2
    obtain ⟨h3, _⟩ := h2
    rw [← h3] at hpc
    simp at hpc
  · have hok2 : (match stmts.getLast? with
        | none => (([] : List Msg),
            Outcome.panic (α := Session) "called Option unwrap on a None value")
        | some statement =>
          match (match statement with
                | Statement.query q => SelectCommand.describe cat raw q
                | _ => (([] : List Msg), Outcome.ok ([] : Description))) with
          | (dmsgs, Outcome.err e) => (dmsgs, Outcome.err e)
          | (dmsgs, Outcome.panic m) => (dmsgs, Outcome.panic m)
          | (dmsgs, Outcome.ok description) =>
            (dmsgs ++ [Msg.evt QueryEvent.parseComplete],
              Outcome.ok (sess.set_prepared_statement statement_name
                ⟨statement, param_types, description⟩))) = (msgs, Outcome.ok sess2) := hok
    rcases hl : stmts.getLast? with _ | stmt
    · rw [hl] at hok2
      have h2 : (([] : List Msg),
          Outcome.panic (α := Session) "called Option unwrap on a None value") =
          (msgs, Outcome.ok sess2) := hok2
      simp at h2
    · rw [hl] at hok2
      have h2 : (match (match stmt with
            | Statement.query q => SelectCommand.describe cat raw q
            | _ => (([] : List Msg), Outcome.ok ([] : Description))) with
          | (dmsgs, Outcome.err e) => (dmsgs, Outcome.err (α := Session) e)
          | (dmsgs, Outcome.panic m) => (dmsgs, Outcome.panic m)
          | (dmsgs, Outcome.ok description) =>
            (dmsgs ++ [Msg.evt QueryEvent.parseComplete],
              Outcome.ok (sess.set_prepared_statement statement_name
                ⟨stmt, param_types, description⟩))) = (msgs, Outcome.ok sess2) := hok2
      rcases hd : (match stmt with
          | Statement.query q => SelectCommand.describe cat raw q
          | _ => (([] : List Msg), Outcome.ok ([] : Description))) with ⟨dmsgs, o⟩
      rw [hd] at h2
      cases o with
      | ok description =>
        have h3 : (dmsgs ++ [Msg.evt QueryEvent.parseComplete],
            Outcome.ok (sess.set_prepared_statement statement_name
              ⟨stmt, param_types, description⟩)) = (msgs, Outcome.ok sess2) := h2
        rw [Prod.mk.injEq] at h3
        obtain ⟨_, h5⟩ := h3
        have h6 : sess.set_prepared_statement statement_name
            ⟨stmt, param_types, description⟩ = sess2 := by
          injection h5
        refine ⟨stmt, description, ?_, ?_⟩
        · rw [← h6]
          exact get_set_prepared_statement sess statement_name _
        · rw [← h6]
          unfold QueryExecutor.describe_prepared_statement
          rw [get_set_prepared_statement sess statement_name _]
      | err e =>
        have h3 : (dmsgs, Outcome.err (α := Session) e) = (msgs, Outcome.ok sess2) := h2
        simp at h3
      | panic m =>
        have h3 : (dmsgs, Outcome.panic (α := Session) m) = (msgs, Outcome.ok sess2) := h2
        simp at h3

/-- Witness for C8: parse of a non-query statement with one declared
    parameter type, then describe. -/
theorem c8_parse_then_describe_witness :
    ∃ stmt description,
      (Session.mk [("s1", ⟨Statement.startTransaction, [PgType.int], []⟩)]
        []).get_prepared_statement "s1" = some ⟨stmt, [PgType.int], description⟩ ∧
      QueryExecutor.describe_prepared_statement
          (Session.mk [("s1", ⟨Statement.startTransaction, [PgType.int], []⟩)] []) "s1" =
        ([.evt (.preparedStatementDescribed [PgType.int] description)],
          .ok (Session.mk [("s1", ⟨Statement.startTransaction, [PgType.int], []⟩)] [])) :=
  c8_parse_then_describe ⟨[]⟩ ⟨[], []⟩ "s1" "START TRANSACTION"
    (some [Statement.startTransaction]) [PgType.int]
    [Msg.evt QueryEvent.parseComplete]
    (Session.mk [("s1", ⟨Statement.startTransaction, [PgType.int], []⟩)] [])
    (by decide) (by decide)

/-- Enumerated positions below the start index never match. -/
theorem enumFrom_filter_lt (rs : List String) : ∀ m j, j < m →
    (List.enumFrom m rs).filter (fun p => p.fst == j) = [] := by
  induction rs with
  | nil => intro m j _; rfl
  | cons r rs ih =>
    intro m j h
    simp only [List.enumFrom, List.filter_cons]
    have hne : ((m, r).fst == j) = false := by
      simp only [beq_eq_false_iff_ne, ne_eq]
      omega
    rw [hne]
    exact ih (m + 1) j (by omega)

/-- Filtering the enumeration at an in-range position keeps exactly the
    element at that position. -/
theorem enumFrom_filter_map (rs : List String) : ∀ k i, i < rs.length →
    ((List.enumFrom k rs).filter (fun p => p.fst == k + i)).map Prod.snd =
      [rs.getD i ""] := by
  induction rs with
  | nil => intro k i h; simp at h
  | cons r rs ih =>
    intro k i h
    cases i with
    | zero =>
      simp only [List.enumFrom, List.filter_cons]
      have h1 : ((k, r).fst == k + 0) = true := by simp
      rw [h1]
      rw [enumFrom_filter_lt rs (k + 1) (k + 0) (by omega)]
      rfl
    | succ j =>
      simp only [List.enumFrom, List.filter_cons]
      have h1 : ((k, r).fst == k + (j + 1)) = false := by
        simp only [beq_eq_false_iff_ne, ne_eq]
        omega
      rw [h1]
      have h2 := ih (k + 1) j (by simpa using h)
      simp only [show k + (j + 1) = (k + 1) + j by omega]
      simpa using h2

/-- With all origins in range, the quadratic gather equals direct indexing. -/
theorem gather_values_eq (row : List String) :
    ∀ idxs : List Nat, (∀ i ∈ idxs, i < row.length) →
      SelectCommand.gather_values idxs row = idxs.map (fun i => row.getD i "") := by
  intro idxs
  induction idxs with
  | nil => intro _; rfl
  | cons i is ih =>
    intro h
    unfold SelectCommand.gather_values
    have hi : i < row.length := h i (by simp)
    have h1 : ((row.enum.filter (fun p => p.fst == i)).map Prod.snd) = [row.getD i ""] := by
      have h2 := enumFrom_filter_map row 0 i hi
      simpa [List.enum] using h2
    rw [h1, ih (fun j hj => h j (by simp [hj]))]
    rfl

/-- Specification of the indexed first-match search. -/
theorem find_column_spec (c : String) :
    ∀ (cols : List ColumnDefinition) (idx i : Nat) (d : ColumnDefinition),
      SelectCommand.find_column idx cols c = some (i, d) →
      idx ≤ i ∧ i - idx < cols.length ∧
        cols.getD (i - idx) ⟨"", SqlType.bool⟩ = d ∧ d.name = c := by
  intro cols
  induction cols with
  | nil => intro idx i d h; cases h
  | cons d0 ds ih =>
    intro idx i d h
    unfold SelectCommand.find_column at h
    by_cases hn : d0.has_name c
    · rw [if_pos hn] at h
      have h1 : (idx, d0) = (i, d) := by injection h
      rw [Prod.mk.injEq] at h1
      obtain ⟨h2, h3⟩ := h1
      subst h2
      subst h3
      refine ⟨le_refl idx, by simp, by simp, ?_⟩
      simpa [ColumnDefinition.has_name] using hn
    · rw [if_neg hn] at h
      obtain ⟨h1, h2, h3, h4⟩ := ih (idx + 1) i d h
      refine ⟨by omega, by simp; omega, ?_, h4⟩
      have hsub : i - idx = (i - (idx + 1)) + 1 := by omega
      rw [hsub]
      simpa using h3

/-- A column present by name is found by the indexed search. -/
theorem find_column_isSome (c : String) :
    ∀ cols : List ColumnDefinition, (∃ d ∈ cols, d.name = c) →
      ∀ idx, (SelectCommand.find_column idx cols c).isSome = true := by
  intro cols
  induction cols with
  | nil => intro h; simp at h
  | cons d0 ds ih =>
    intro h idx
    unfold SelectCommand.find_column
    by_cases hn : d0.has_name c
    · simp [hn]
    · rw [if_neg hn]
      rcases h with ⟨d, hd, hdc⟩
      rcases List.mem_cons.mp hd with h0 | h0
      · exfalso
        apply hn
        subst h0
        simpa [ColumnDefinition.has_name] using hdc
      · exact ih ⟨d, h0, hdc⟩ (idx + 1)

/-- With every selected column found, the resolution loop returns the mapped
    indices and definitions and no missing name. -/
theorem resolve_exec_all_found (all : List ColumnDefinition) :
    ∀ sel : List String,
      (∀ c ∈ sel, (SelectCommand.find_column 0 all c).isSome = true) →
      SelectCommand.resolve_exec all sel =
        (sel.map (fun c =>
          ((SelectCommand.find_column 0 all c).getD (0, ⟨"", SqlType.bool⟩)).1),
         sel.map (fun c =>
          ((SelectCommand.find_column 0 all c).getD (0, ⟨"", SqlType.bool⟩)).2),
         []) := by
  intro sel
  induction sel with
  | nil => intro _; rfl
  | cons c cs ih =>
    intro h
    unfold SelectCommand.resolve_exec
    rcases hf : SelectCommand.find_column 0 all c with _ | ⟨i, d⟩
    · have := h c (by simp)
      rw [hf] at this
      simp at this
    · rw [ih (fun x hx => h x (by simp [hx]))]
      simp [hf]

/-- The projection loop on a list of bare identifiers returns the names. -/
theorem selected_columns_loop_idents (cat : Catalog) (s t raw : String) :
    ∀ C : List String,
      SelectCommand.selected_columns_loop cat s t raw
        (C.map (fun c => SelectItem.unnamedExpr (Expr.identifier c))) =
      ([], .ok C) := by
  intro C
  induction C with
  | nil => rfl
  | cons c cs ih =>
    simp only [List.map_cons]
    unfold SelectCommand.selected_columns_loop
    rw [ih]

/-- Parsing the select input of a plain two-segment identifier selection
    over an existing table succeeds with the selection list. -/
theorem parse_select_input_idents (cat : Catalog) (raw s t : String)
    (joins : List Join) (C : List String) (td : TableDef)
    (hex : cat.table_exists s t = some (some td)) :
    SelectCommand.parse_select_input cat raw
        ⟨SetExpr.selectBody (C.map (fun c => SelectItem.unnamedExpr (Expr.identifier c)))
          [⟨TableFactor.table [s, t], joins⟩]⟩ =
      ([], .ok ⟨s, t, C⟩) := by
  have hl := selected_columns_loop_idents cat s t raw C
  simp [SelectCommand.parse_select_input, hex, hl]

/-- getD through a map at an in-range index. -/
theorem getD_map_lt {α β : Type} (f : α → β) (l : List α) :
    ∀ (i : Nat), i < l.length → ∀ (da : α) (db : β),
      (l.map f).getD i db = f (l.getD i da) := by
  induction l with
  | nil => intro i h; simp at h
  | cons a as ih =>
    intro i h da db
    cases i with
    | zero => rfl
    | succ j => exact ih j (by simpa using h) da db

/-- getD at an in-range index is a member. -/
theorem getD_mem_of_lt {α : Type} (l : List α) :
    ∀ (i : Nat), i < l.length → ∀ d : α, l.getD i d ∈ l := by
  induction l with
  | nil => intro i h; simp at h
  | cons a as ih =>
    intro i h d
    cases i with
    | zero => simp [List.getD]
    | succ j => exact List.mem_cons_of_mem a (ih j (by simpa using h) d)

/-- A pointwise-identity map is the identity. -/
theorem map_eq_self_of_eq {α : Type} (l : List α) (f : α → α)
    (h : ∀ a ∈ l, f a = a) : l.map f = l := by
  induction l with
  | nil => rfl
  | cons a as ih =>
    simp only [List.map_cons, h a (by simp),
      ih (fun x hx => h x (by simp [hx]))]

/-- C5: selecting existing columns C from a table with physical columns P
    emits a single RecordsSelected whose description has width |C| and lists
    the selected columns in selection order, and whose row i, position j
    holds the physical row i field at the first index of C[j] in P. -/
theorem c5_projection (cat : Catalog) (raw s t : String) (joins : List Join)
    (C : List String) (td : TableDef)
    (hex : cat.table_exists s t = some (some td))
    (hcols : ∀ c ∈ C, ∃ d ∈ cat.table_columns s t, d.name = c)
    (hrows : ∀ row ∈ cat.full_scan s t,
      row.length = (cat.table_columns s t).length) :
    ∃ (description : Description) (rows : List (List String)),
      SelectCommand.execute cat raw
          ⟨SetExpr.selectBody
            (C.map (fun c => SelectItem.unnamedExpr (Expr.identifier c)))
            [⟨TableFactor.table [s, t], joins⟩]⟩ =
        ([.evt (.recordsSelected description rows)], .ok ()) ∧
      description.map Prod.fst = C ∧
      description.length = C.length ∧
      rows.length = (cat.full_scan s t).length ∧
      (∀ i, i < rows.length → (rows.getD i []).length = C.length) ∧
      (∀ i j, i < rows.length → j < C.length →
        (rows.getD i []).getD j "" =
          ((cat.full_scan s t).getD i []).getD
            (((SelectCommand.find_column 0 (cat.table_columns s t)
              (C.getD j "")).getD (0, ⟨"", SqlType.bool⟩)).1) "") := by
  have hparse := parse_select_input_idents cat raw s t joins C td hex
  have hsome : ∀ c ∈ C,
      (SelectCommand.find_column 0 (cat.table_columns s t) c).isSome = true :=
    fun c hc => find_column_isSome c (cat.table_columns s t) (hcols c hc) 0
  have hres := resolve_exec_all_found (cat.table_columns s t) C hsome
  have hfacts : ∀ c ∈ C,
      ((SelectCommand.find_column 0 (cat.table_columns s t) c).getD
        (0, ⟨"", SqlType.bool⟩)).1 < (cat.table_columns s t).length ∧
      ((SelectCommand.find_column 0 (cat.table_columns s t) c).getD
        (0, ⟨"", SqlType.bool⟩)).2.name = c := by
    intro c hc
    have h1 := hsome c hc
    rcases Option.isSome_iff_exists.mp h1 with ⟨p, hp⟩
    rcases p with ⟨i, d⟩
    obtain ⟨_, h3, _, h5⟩ := find_column_spec c (cat.table_columns s t) 0 i d hp
    simp only [hp, Option.getD_some]
    exact ⟨by simpa using h3, h5⟩
  refine ⟨(C.map (fun c => ((SelectCommand.find_column 0 (cat.table_columns s t) c).getD
      (0, ⟨"", SqlType.bool⟩)).2)).map
      (fun column => (column.name, sql_to_pg column.sql_type)),
    (cat.full_scan s t).map (fun row => SelectCommand.gather_values
      (C.map (fun c => ((SelectCommand.find_column 0 (cat.table_columns s t) c).getD
        (0, ⟨"", SqlType.bool⟩)).1)) row), ?_, ?_, ?_, ?_, ?_, ?_⟩
  · simp [SelectCommand.execute, hparse, hres]
  · simp only [List.map_map]
    exact map_eq_self_of_eq C _ (fun c hc => by
      simpa [Function.comp] using (hfacts c hc).2)
  · simp
  · simp
  · intro i hi
    have hiR : i < (cat.full_scan s t).length := by simpa using hi
    rw [getD_map_lt _ _ i hiR [] []]
    have hlen := hrows _ (getD_mem_of_lt _ i hiR [])
    have hbound : ∀ idx ∈ C.map (fun c =>
        ((SelectCommand.find_column 0 (cat.table_columns s t) c).getD
          (0, ⟨"", SqlType.bool⟩)).1),
        idx < ((cat.full_scan s t).getD i []).length := by
      intro idx hidx
      rcases List.mem_map.mp hidx with ⟨c, hc, rfl⟩
      rw [hlen]
      exact (hfacts c hc).1
    rw [gather_values_eq ((cat.full_scan s t).getD i []) _ hbound]
    simp
  · intro i j hi hj
    have hiR : i < (cat.full_scan s t).length := by simpa using hi
    rw [getD_map_lt _ _ i hiR [] []]
    have hlen := hrows _ (getD_mem_of_lt _ i hiR [])
    have hbound : ∀ idx ∈ C.map (fun c =>
        ((SelectCommand.find_column 0 (cat.table_columns s t) c).getD
          (0, ⟨"", SqlType.bool⟩)).1),
        idx < ((cat.full_scan s t).getD i []).length := by
      intro idx hidx
      rcases List.mem_map.mp hidx with ⟨c, hc, rfl⟩
      rw [hlen]
      exact (hfacts c hc).1
    rw [gather_values_eq ((cat.full_scan s t).getD i []) _ hbound]
    rw [List.map_map]
    rw [getD_map_lt _ C j hj "" ""]
    simp [Function.comp]

/-- Concrete catalog of scenario S1: schema s, table t(a smallint, b
    varchar) holding one row. -/
def sampleCatalog : Catalog :=
  ⟨[⟨"s", [⟨"t", [⟨"a", .smallInt (-32768)⟩, ⟨"b", .varChar 255⟩],
    [["1", "x"]]⟩]⟩]⟩

/-- Witness for C5: SELECT b, a FROM s.t over the S1 catalog. -/
theorem c5_projection_witness :
    ∃ (description : Description) (rows : List (List String)),
      SelectCommand.execute sampleCatalog "SELECT b, a FROM s.t"
          ⟨SetExpr.selectBody
            ((["b", "a"] : List String).map
              (fun c => SelectItem.unnamedExpr (Expr.identifier c)))
            [⟨TableFactor.table ["s", "t"], []⟩]⟩ =
        ([.evt (.recordsSelected description rows)], .ok ()) ∧
      description.map Prod.fst = ["b", "a"] ∧
      description.length = (["b", "a"] : List String).length ∧
      rows.length = (sampleCatalog.full_scan "s" "t").length ∧
      (∀ i, i < rows.length →
        (rows.getD i []).length = (["b", "a"] : List String).length) ∧
      (∀ i j, i < rows.length → j < (["b", "a"] : List String).length →
        (rows.getD i []).getD j "" =
          ((sampleCatalog.full_scan "s" "t").getD i []).getD
            (((SelectCommand.find_column 0 (sampleCatalog.table_columns "s" "t")
              ((["b", "a"] : List String).getD j "")).getD
                (0, ⟨"", SqlType.bool⟩)).1) "") :=
  c5_projection sampleCatalog "SELECT b, a FROM s.t" "s" "t" [] ["b", "a"]
    ⟨"t", [⟨"a", .smallInt (-32768)⟩, ⟨"b", .varChar 255⟩], [["1", "x"]]⟩
    (by decide) (by decide) (by decide)

end Database
